import Mathlib

set_option linter.unusedVariables false

/-!
Verification development for the cybersec-llm-rag repository.

The definitions below are a shallow embedding of the repository's
STIX-to-graph normalization pipeline (src/cybersecurity/attack_ingestion.py),
its Neo4j upsert layer (store_in_neo4j, modelled as a pure in-memory
property-graph store with MERGE/MATCH/SET semantics), the selective
retriever (src/knowledge_base/graph_operations.py), the query-intent
classifier wrapper (src/api/llm_service.py: analyze_user_query) and the
PDF-framework structure extractors with their static sample fallbacks
(src/cybersecurity/{cis,nist,hipaa,ffiec,pci_dss}_ingestion.py).

Modelling conventions:
* Python dicts of graph properties become association lists over `PVal`
  (string / list-of-string / boolean property values).
* Absent optional JSON fields are represented by `""` / `[]` exactly where
  the source reads them with `obj.get(key, default)` with those defaults.
* Neo4j is modelled as lists of nodes and edges.  `MERGE (n:L {id: $id})`
  is keyed by (label, id); `MATCH (n {id: $x})` matches by the id property
  alone (no label), as in the source's relationship queries.  `SET n.k = ...`
  overwrites the listed keys; `SET r += $props` merges keys additively.
* A Python exception that the source catches-and-skips is modelled by the
  corresponding step returning its input unchanged with a zero count; an
  exception the source re-raises is modelled with `Except`.
* String case operations follow Python's `str.upper`/`str.lower` restricted
  to ASCII, and keyword strings are treated as opaque data (Cypher quoting /
  injection of special characters in keywords is out of scope).
-/

/-- Property values stored on graph nodes and relationships: strings,
lists of strings, and booleans, mirroring the value shapes the ingestion
code actually writes. -/
inductive PVal where
  | s (v : String)
  | l (v : List String)
  | b (v : Bool)
deriving DecidableEq, Repr

/-- Look up a key in an association list of properties (first match),
mirroring Python dict access for the fixed-key dicts built by the code. -/
def lookupProp (props : List (String × PVal)) (k : String) : Option PVal :=
  (props.find? (fun p => p.1 == k)).map (fun p => p.2)

/-- Python `s[:n]` on a string: the first `n` characters. -/
def strTake (s : String) (n : Nat) : String :=
  ⟨s.data.take n⟩

/-- Python `s.upper()` (ASCII). -/
def pyUpper (s : String) : String :=
  ⟨s.data.map Char.toUpper⟩

/-- Python `s.lower()` (ASCII). -/
def pyLower (s : String) : String :=
  ⟨s.data.map Char.toLower⟩

/-- Python `relationship_type.upper().replace('-', '_')` from
`ATTACKDataIngester._process_relationship`. -/
def relTypeNormalize (s : String) : String :=
  ⟨s.data.map (fun c => if c.toUpper = '-' then '_' else c.toUpper)⟩

/-- Whether `needle` occurs as a substring of `hay` (both as char lists). -/
def strContainsSub (hay needle : String) : Bool :=
  (List.range (hay.data.length + 1)).any
    (fun i => needle.data.isPrefixOf (hay.data.drop i))

/-- Case-insensitive substring test, Cypher
`toLower(field) CONTAINS toLower(kw)`. -/
def containsCI (hay kw : String) : Bool :=
  strContainsSub (pyLower hay) (pyLower kw)

/-- Python `"sep".join(items)` for a list of strings. -/
def joinSep (sep : String) : List String → String
  | [] => ""
  | [a] => a
  | a :: rest => a ++ sep ++ joinSep sep rest

/-- An external reference entry of a raw STIX object.  The ingestion code
reads only `source_name` and `external_id`; `url` is carried by the data
but never read by the code. -/
structure ExtRef where
  source_name : String := ""
  external_id : String := ""
  url : String := ""
deriving DecidableEq, Repr

/-- A kill-chain phase entry of a raw STIX `attack-pattern` object. -/
structure KillChainPhase where
  kill_chain_name : String := ""
  phase_name : String := ""
deriving DecidableEq, Repr

/-- A raw STIX object, with exactly the fields the ingestion code reads.
Optional source fields are defaulted the way the code's `obj.get(k, d)`
calls default them. -/
structure StixObject where
  type : String := ""
  id : String := ""
  name : String := ""
  description : String := ""
  external_references : List ExtRef := []
  kill_chain_phases : List KillChainPhase := []
  x_mitre_platforms : List String := []
  x_mitre_data_sources : List String := []
  x_mitre_permissions_required : List String := []
  x_mitre_is_subtechnique : Bool := false
  created : String := ""
  modified : String := ""
  labels : List String := []
  aliases : List String := []
  first_seen : String := ""
  last_seen : String := ""
  x_mitre_data_source_ref : String := ""
  source_ref : String := ""
  target_ref : String := ""
  relationship_type : String := ""
deriving DecidableEq, Repr

/-- A graph-ready node dict: `{"id": ..., "type": ..., "properties": ...}`. -/
structure GNode where
  id : String
  type : String
  properties : List (String × PVal)
deriving DecidableEq, Repr

/-- A graph-ready relationship dict:
`{"source": ..., "target": ..., "type": ..., "properties": ...}`. -/
structure GRel where
  source : String
  target : String
  type : String
  properties : List (String × PVal)
deriving DecidableEq, Repr

/-- One entry of the `nodes` list handed to `store_in_neo4j`: a dict with a
`node` and a `relationships` key (the extra `tactics` key of technique
entries is never read by the storage code and is dropped here). -/
structure ProcItem where
  node : GNode
  relationships : List GRel
deriving DecidableEq, Repr

/-- The result of `ATTACKDataIngester._process_technique`: the technique
node, its embedded relationships, and the synthesized tactic node entries. -/
structure TechniqueData where
  node : GNode
  relationships : List GRel
  tactics : List ProcItem
deriving DecidableEq, Repr

/-- The ingestion statistics counters of `process_attack_objects`. -/
structure Stats where
  techniques : Nat := 0
  malware : Nat := 0
  threat_groups : Nat := 0
  tools : Nat := 0
  tactics : Nat := 0
  mitigations : Nat := 0
  data_sources : Nat := 0
  data_components : Nat := 0
  campaigns : Nat := 0
  relationships : Nat := 0
  other : Nat := 0
deriving DecidableEq, Repr

/-- The identifier taken from the first external reference whose
`source_name` is `mitre-attack` (empty if none), as in the extraction
loops of `_process_technique`, `_process_threat_group`, `_process_tool`
and `_process_mitigation`. -/
def mitreExternalId (refs : List ExtRef) : String :=
  match refs.find? (fun r => r.source_name == "mitre-attack") with
  | some r => r.external_id
  | none => ""

/-- `ATTACKDataIngester._process_technique`. -/
def processTechnique (obj : StixObject) : TechniqueData :=
  let technique_id0 := mitreExternalId obj.external_references
  let technique_id := if technique_id0 = "" then obj.id else technique_id0
  let tactics := obj.kill_chain_phases.map (fun p => p.phase_name)
  let kill_chain_phase_names :=
    obj.kill_chain_phases.map (fun p => p.kill_chain_name ++ ": " ++ p.phase_name)
  let node : GNode :=
    { id := obj.id
      type := "Technique"
      properties :=
        [("technique_id", PVal.s technique_id),
         ("name", PVal.s obj.name),
         ("description", PVal.s (strTake obj.description 500)),
         ("tactics", PVal.l tactics),
         ("platforms", PVal.l obj.x_mitre_platforms),
         ("data_sources", PVal.l obj.x_mitre_data_sources),
         ("kill_chain_phases", PVal.l kill_chain_phase_names),
         ("permissions_required", PVal.l obj.x_mitre_permissions_required),
         ("is_subtechnique", PVal.b obj.x_mitre_is_subtechnique),
         ("created", PVal.s obj.created),
         ("modified", PVal.s obj.modified),
         ("full_description", PVal.s obj.description)] }
  let rels : List GRel :=
    tactics.map (fun t =>
      { source := obj.id
        target := "tactic_" ++ t
        type := "BELONGS_TO_TACTIC"
        properties := [("tactic_name", PVal.s t)] })
  let tacticNodes : List ProcItem :=
    tactics.map (fun t =>
      { node :=
          { id := "tactic_" ++ t
            type := "Tactic"
            properties :=
              [("name", PVal.s t),
               ("description", PVal.s ("MITRE ATT&CK Tactic: " ++ t)),
               ("created", PVal.s obj.created),
               ("modified", PVal.s obj.modified)] }
        relationships := [] })
  { node := node, relationships := rels, tactics := tacticNodes }

/-- `ATTACKDataIngester._process_malware`. -/
def processMalware (obj : StixObject) : ProcItem :=
  { node :=
      { id := obj.id
        type := "Malware"
        properties :=
          [("name", PVal.s obj.name),
           ("description", PVal.s (strTake obj.description 500)),
           ("labels", PVal.l obj.labels),
           ("platforms", PVal.l obj.x_mitre_platforms),
           ("created", PVal.s obj.created),
           ("modified", PVal.s obj.modified),
           ("full_description", PVal.s obj.description)] }
    relationships := [] }

/-- `ATTACKDataIngester._process_threat_group`. -/
def processThreatGroup (obj : StixObject) : ProcItem :=
  { node :=
      { id := obj.id
        type := "ThreatGroup"
        properties :=
          [("group_id", PVal.s (mitreExternalId obj.external_references)),
           ("name", PVal.s obj.name),
           ("description", PVal.s (strTake obj.description 500)),
           ("aliases", PVal.l obj.aliases),
           ("created", PVal.s obj.created),
           ("modified", PVal.s obj.modified),
           ("full_description", PVal.s obj.description)] }
    relationships := [] }

/-- `ATTACKDataIngester._process_tool`. -/
def processTool (obj : StixObject) : ProcItem :=
  { node :=
      { id := obj.id
        type := "Tool"
        properties :=
          [("tool_id", PVal.s (mitreExternalId obj.external_references)),
           ("name", PVal.s obj.name),
           ("description", PVal.s (strTake obj.description 500)),
           ("labels", PVal.l obj.labels),
           ("platforms", PVal.l obj.x_mitre_platforms),
           ("created", PVal.s obj.created),
           ("modified", PVal.s obj.modified),
           ("full_description", PVal.s obj.description)] }
    relationships := [] }

/-- `ATTACKDataIngester._process_mitigation`. -/
def processMitigation (obj : StixObject) : ProcItem :=
  { node :=
      { id := obj.id
        type := "Mitigation"
        properties :=
          [("mitigation_id", PVal.s (mitreExternalId obj.external_references)),
           ("name", PVal.s obj.name),
           ("description", PVal.s (strTake obj.description 500)),
           ("created", PVal.s obj.created),
           ("modified", PVal.s obj.modified),
           ("full_description", PVal.s obj.description)] }
    relationships := [] }

/-- `ATTACKDataIngester._process_data_source`. -/
def processDataSource (obj : StixObject) : ProcItem :=
  { node :=
      { id := obj.id
        type := "DataSource"
        properties :=
          [("name", PVal.s obj.name),
           ("description", PVal.s (strTake obj.description 500)),
           ("platforms", PVal.l obj.x_mitre_platforms),
           ("created", PVal.s obj.created),
           ("modified", PVal.s obj.modified),
           ("full_description", PVal.s obj.description)] }
    relationships := [] }

/-- `ATTACKDataIngester._process_data_component`. -/
def processDataComponent (obj : StixObject) : ProcItem :=
  { node :=
      { id := obj.id
        type := "DataComponent"
        properties :=
          [("name", PVal.s obj.name),
           ("description", PVal.s (strTake obj.description 500)),
           ("created", PVal.s obj.created),
           ("modified", PVal.s obj.modified),
           ("full_description", PVal.s obj.description)] }
    relationships :=
      if obj.x_mitre_data_source_ref ≠ "" then
        [{ source := obj.id
           target := obj.x_mitre_data_source_ref
           type := "BELONGS_TO_DATA_SOURCE"
           properties := [] }]
      else [] }

/-- `ATTACKDataIngester._process_campaign`. -/
def processCampaign (obj : StixObject) : ProcItem :=
  { node :=
      { id := obj.id
        type := "Campaign"
        properties :=
          [("name", PVal.s obj.name),
           ("description", PVal.s (strTake obj.description 500)),
           ("aliases", PVal.l obj.aliases),
           ("first_seen", PVal.s obj.first_seen),
           ("last_seen", PVal.s obj.last_seen),
           ("created", PVal.s obj.created),
           ("modified", PVal.s obj.modified),
           ("full_description", PVal.s obj.description)] }
    relationships := [] }

/-- `ATTACKDataIngester._process_relationship`: `None` when any of
source_ref / target_ref / relationship_type is missing. -/
def processRelationship (obj : StixObject) : Option GRel :=
  if obj.source_ref ≠ "" ∧ obj.target_ref ≠ "" ∧ obj.relationship_type ≠ "" then
    some
      { source := obj.source_ref
        target := obj.target_ref
        type := relTypeNormalize obj.relationship_type
        properties :=
          [("description", PVal.s obj.description),
           ("created", PVal.s obj.created)] }
  else
    none

/-- The output of `ATTACKDataIngester.process_attack_objects`. -/
structure ProcessOutput where
  nodes : List ProcItem
  relationships : List GRel
  stats : Stats
deriving DecidableEq, Repr

/-- `ATTACKDataIngester.process_attack_objects`: the dispatch loop over
raw objects, emitting graph-ready nodes and relationships in source order
together with the statistics counters. -/
def processAttackObjects : List StixObject → ProcessOutput
  | [] => { nodes := [], relationships := [], stats := {} }
  | obj :: rest =>
    let r := processAttackObjects rest
    if obj.type = "attack-pattern" then
      let td := processTechnique obj
      { nodes := ({ node := td.node, relationships := td.relationships } :: td.tactics)
          ++ r.nodes
        relationships := td.relationships ++ r.relationships
        stats := { r.stats with
          techniques := r.stats.techniques + 1
          tactics := r.stats.tactics + td.tactics.length } }
    else if obj.type = "malware" then
      let it := processMalware obj
      { nodes := it :: r.nodes
        relationships := it.relationships ++ r.relationships
        stats := { r.stats with malware := r.stats.malware + 1 } }
    else if obj.type = "intrusion-set" then
      let it := processThreatGroup obj
      { nodes := it :: r.nodes
        relationships := it.relationships ++ r.relationships
        stats := { r.stats with threat_groups := r.stats.threat_groups + 1 } }
    else if obj.type = "tool" then
      let it := processTool obj
      { nodes := it :: r.nodes
        relationships := it.relationships ++ r.relationships
        stats := { r.stats with tools := r.stats.tools + 1 } }
    else if obj.type = "course-of-action" then
      let it := processMitigation obj
      { nodes := it :: r.nodes
        relationships := it.relationships ++ r.relationships
        stats := { r.stats with mitigations := r.stats.mitigations + 1 } }
    else if obj.type = "x-mitre-data-source" then
      let it := processDataSource obj
      { nodes := it :: r.nodes
        relationships := it.relationships ++ r.relationships
        stats := { r.stats with data_sources := r.stats.data_sources + 1 } }
    else if obj.type = "x-mitre-data-component" then
      let dc := processDataComponent obj
      { nodes := dc :: r.nodes
        relationships := dc.relationships ++ r.relationships
        stats := { r.stats with data_components := r.stats.data_components + 1 } }
    else if obj.type = "campaign" then
      let it := processCampaign obj
      { nodes := it :: r.nodes
        relationships := it.relationships ++ r.relationships
        stats := { r.stats with campaigns := r.stats.campaigns + 1 } }
    else if obj.type = "relationship" then
      match processRelationship obj with
      | some rel =>
        { nodes := r.nodes
          relationships := rel :: r.relationships
          stats := { r.stats with relationships := r.stats.relationships + 1 } }
      | none =>
        { nodes := r.nodes, relationships := r.relationships, stats := r.stats }
    else
      { nodes := r.nodes
        relationships := r.relationships
        stats := { r.stats with other := r.stats.other + 1 } }

/-- A node of the modelled Neo4j store.  `label` is the Neo4j label and
`id` the value of the `id` property set by the MERGE pattern; `props` are
the properties written by the SET clause. -/
structure StoreNode where
  label : String
  id : String
  props : List (String × PVal)
deriving DecidableEq, Repr

/-- An edge of the modelled Neo4j store, identified by its endpoint nodes
(label, id pairs) and its relationship type, as created by
`MERGE (source)-[r:TYPE]->(target)`. -/
structure StoreEdge where
  srcLabel : String
  srcId : String
  type : String
  tgtLabel : String
  tgtId : String
  props : List (String × PVal)
deriving DecidableEq, Repr

/-- The modelled Neo4j store. -/
structure Store where
  nodes : List StoreNode
  edges : List StoreEdge
deriving DecidableEq, Repr

/-- The empty store. -/
def emptyStore : Store := { nodes := [], edges := [] }

/-- The property keys written by the per-label SET clause of
`store_in_neo4j` for each node type; `none` for an unrecognized type
(the source's final `else: continue`). -/
def nodeSetKeys (t : String) : Option (List String) :=
  if t = "Technique" then
    some ["technique_id", "name", "description", "tactics", "platforms",
          "data_sources", "kill_chain_phases", "permissions_required",
          "is_subtechnique", "created", "modified", "full_description"]
  else if t = "Malware" then
    some ["name", "description", "labels", "platforms", "created",
          "modified", "full_description"]
  else if t = "ThreatGroup" then
    some ["group_id", "name", "description", "aliases", "created",
          "modified", "full_description"]
  else if t = "Tool" then
    some ["tool_id", "name", "description", "labels", "platforms",
          "created", "modified", "full_description"]
  else if t = "Mitigation" then
    some ["mitigation_id", "name", "description", "created", "modified",
          "full_description"]
  else if t = "DataSource" then
    some ["name", "description", "platforms", "created", "modified",
          "full_description"]
  else if t = "DataComponent" then
    some ["name", "description", "created", "modified", "full_description"]
  else if t = "Campaign" then
    some ["name", "description", "aliases", "first_seen", "last_seen",
          "created", "modified", "full_description"]
  else if t = "Tactic" then
    some ["name", "description", "created", "modified"]
  else
    none

/-- Collect the query parameters for the given SET keys from a node's
property dict; `none` when a parameter is missing (the driver would raise
and the source would catch and skip the node). -/
def extractSetProps (props : List (String × PVal)) (keys : List String) :
    Option (List (String × PVal)) :=
  keys.mapM (fun k => (lookupProp props k).map (fun v => (k, v)))

/-- `MERGE (n:label {id: $id}) SET n.k1 = ..., ...`: update the matching
node's properties in place if a node with this label and id exists,
otherwise append a new node. -/
def mergeNode (st : Store) (label id : String) (setProps : List (String × PVal)) :
    Store :=
  if st.nodes.any (fun n => n.label == label && n.id == id) then
    { st with
      nodes := st.nodes.map (fun n =>
        if n.label == label && n.id == id then { n with props := setProps } else n) }
  else
    { st with nodes := st.nodes ++ [{ label := label, id := id, props := setProps }] }

/-- Storing one entry of the nodes list: dispatch on the node type,
skipping (without counting) unknown types and nodes missing a SET
parameter, otherwise MERGE and count it as stored. -/
def storeNodeStep (st : Store) (item : ProcItem) : Store × Nat :=
  match nodeSetKeys item.node.type with
  | none => (st, 0)
  | some keys =>
    match extractSetProps item.node.properties keys with
    | none => (st, 0)
    | some setProps => (mergeNode st item.node.type item.node.id setProps, 1)

/-- The node-storing loop of `store_in_neo4j`. -/
def storeNodesPhase : Store → List ProcItem → Store × Nat
  | st, [] => (st, 0)
  | st, item :: rest =>
    let r1 := storeNodeStep st item
    let r2 := storeNodesPhase r1.1 rest
    (r2.1, r1.2 + r2.2)

/-- Python `old + new` on property keys for Cypher `SET r += $properties`:
keys in `new` overwrite, other keys are kept. -/
def addEdgeProps (old new : List (String × PVal)) : List (String × PVal) :=
  old.filter (fun p => !(new.any (fun q => q.1 == p.1))) ++ new

/-- A valid Cypher relationship-type identifier, as interpolated verbatim
into `MERGE (source)-[r:TYPE]->(target)` by the source: nonempty, made of
letters, digits and underscores, not starting with a digit.  An invalid
type makes the query text malformed, so the driver raises and the source
catches and skips that relationship. -/
def validRelType (t : String) : Bool :=
  match t.data with
  | [] => false
  | c :: cs => (c.isAlpha || c == '_') &&
      cs.all (fun d => d.isAlpha || d.isDigit || d == '_')

/-- `MERGE (source)-[r:type]->(target) SET r += $properties` for one
matched pair of endpoint nodes. -/
def mergeEdge (st : Store) (src : StoreNode) (ty : String) (tgt : StoreNode)
    (props : List (String × PVal)) : Store :=
  if st.edges.any (fun e =>
      e.srcLabel == src.label && e.srcId == src.id && e.type == ty &&
      e.tgtLabel == tgt.label && e.tgtId == tgt.id) then
    { st with
      edges := st.edges.map (fun e =>
        if e.srcLabel == src.label && e.srcId == src.id && e.type == ty &&
            e.tgtLabel == tgt.label && e.tgtId == tgt.id then
          { e with props := addEdgeProps e.props props }
        else e) }
  else
    { st with
      edges := st.edges ++
        [{ srcLabel := src.label, srcId := src.id, type := ty,
           tgtLabel := tgt.label, tgtId := tgt.id, props := props }] }

/-- Storing one relationship: `MATCH (source {id: $source_id})` and
`MATCH (target {id: $target_id})` produce the cartesian product of the
nodes carrying those id properties (no label constraint); the MERGE runs
once per matched row.  When either MATCH is empty the query succeeds with
zero rows, so nothing is written yet the relationship is still counted as
stored; only an invalid type (malformed query, caught exception) skips
the count. -/
def storeRelStep (st : Store) (r : GRel) : Store × Nat :=
  if validRelType r.type then
    let srcs := st.nodes.filter (fun n => n.id == r.source)
    let tgts := st.nodes.filter (fun n => n.id == r.target)
    (srcs.foldl (fun acc s =>
        tgts.foldl (fun acc2 t => mergeEdge acc2 s r.type t r.properties) acc)
      st, 1)
  else
    (st, 0)

/-- A relationship-storing loop of `store_in_neo4j`. -/
def storeRelsPhase : Store → List GRel → Store × Nat
  | st, [] => (st, 0)
  | st, r :: rest =>
    let r1 := storeRelStep st r
    let r2 := storeRelsPhase r1.1 rest
    (r2.1, r1.2 + r2.2)

/-- `ATTACKDataIngester.store_in_neo4j`: store all nodes, then all
node-embedded relationships, then the standalone relationship list;
returns the final store with the stored-node and stored-relationship
counts. -/
def storeInNeo4j (st : Store) (nodesData : List ProcItem)
    (relationshipsData : List GRel) : Store × Nat × Nat :=
  let p1 := storeNodesPhase st nodesData
  let p2 := storeRelsPhase p1.1 (nodesData.flatMap (fun it => it.relationships))
  let p3 := storeRelsPhase p2.1 relationshipsData
  (p3.1, p1.2, p2.2 + p3.2)

/-- Steps 2 and 3 of `ATTACKDataIngester.ingest_attack_data` against an
empty database: process the raw objects, then store nodes and
relationships. -/
def ingestAttackData (objs : List StixObject) : Store × Nat × Nat :=
  let out := processAttackObjects objs
  storeInNeo4j emptyStore out.nodes out.relationships

/-- The (label, id) identity keys of the store's nodes, in store order. -/
def storeKeys (st : Store) : List (String × String) :=
  st.nodes.map (fun n => (n.label, n.id))

/-- The number of nodes carrying a given label. -/
def countLabel (st : Store) (l : String) : Nat :=
  (st.nodes.filter (fun n => n.label == l)).length

/-- The identity tuple of a store edge (everything except its properties). -/
def edgeKey (e : StoreEdge) : String × String × String × String × String :=
  (e.srcLabel, e.srcId, e.type, e.tgtLabel, e.tgtId)

/-- Property access on a store node (a Cypher `n.field`; `none` is null). -/
def getP (n : StoreNode) (k : String) : Option PVal :=
  lookupProp n.props k

/-- Condition template `toLower(field) CONTAINS toLower(kw)`: true only for
string-valued fields (null or non-string values do not match). -/
def condContains (kw : String) (f : Option PVal) : Bool :=
  match f with
  | some (PVal.s v) => containsCI v kw
  | _ => false

/-- Condition template `kw.upper() IN field`: list membership for
list-valued fields (other values do not match). -/
def condUpperIn (kw : String) (f : Option PVal) : Bool :=
  match f with
  | some (PVal.l xs) => xs.contains (pyUpper kw)
  | _ => false

/-- Both condition templates built per keyword by the retriever. -/
def kwCond (kw : String) (f : Option PVal) : Bool :=
  condContains kw f || condUpperIn kw f

/-- The OR of all keyword conditions over all the given fields. -/
def fieldsMatch (kws : List String) (fields : List (Option PVal)) : Bool :=
  kws.any (fun kw => fields.any (fun f => kwCond kw f))

/-- `ANY(alias IN field WHERE toLower(alias) CONTAINS toLower(kw))` over
all keywords. -/
def aliasMatch (kws : List String) (f : Option PVal) : Bool :=
  kws.any (fun kw =>
    match f with
    | some (PVal.l xs) => xs.any (fun a => containsCI a kw)
    | _ => false)

/-- Python truthiness of a possibly-null property value. -/
def pyTruthy : Option PVal → Bool
  | none => false
  | some (PVal.s v) => !(v == "")
  | some (PVal.l xs) => !xs.isEmpty
  | some (PVal.b b) => b

/-- Python repr of a list of strings, as an f-string renders it. -/
def pyListRepr (xs : List String) : String :=
  "[" ++ joinSep ", " (xs.map (fun x => "\x27" ++ x ++ "\x27")) ++ "]"

/-- Rendering of a possibly-null property value inside an f-string. -/
def fstr : Option PVal → String
  | none => "None"
  | some (PVal.s v) => v
  | some (PVal.l xs) => pyListRepr xs
  | some (PVal.b b) => if b then "True" else "False"

/-- Python `", ".join(value)`: joins a list, iterates a string by
characters, raises TypeError on null or boolean values. -/
def pyJoinComma : Option PVal → Except String String
  | some (PVal.l xs) => Except.ok (joinSep ", " xs)
  | some (PVal.s v) => Except.ok (joinSep ", " (v.data.map (fun c => String.mk [c])))
  | _ => Except.error "TypeError: can only join an iterable"

/-- Python `value[:n]` rendered in an f-string: slices a string or a list,
raises TypeError on null or boolean values. -/
def pySliceRender (v : Option PVal) (n : Nat) : Except String String :=
  match v with
  | some (PVal.s sv) => Except.ok (strTake sv n)
  | some (PVal.l xs) => Except.ok (pyListRepr (xs.take n))
  | _ => Except.error "TypeError: value is not subscriptable"

/-- The optional `Citations: N references available` line, guarded by
`if citations and len(citations) > 0`. -/
def citationsLine (v : Option PVal) : Except String (List String) :=
  match v with
  | none => Except.ok []
  | some (PVal.b b) =>
    if b then Except.error "TypeError: object of type bool has no len" else Except.ok []
  | some (PVal.s sv) =>
    Except.ok (if !(sv == "") && sv.length > 0 then
      ["Citations: " ++ toString sv.length ++ " references available"] else [])
  | some (PVal.l xs) =>
    Except.ok (if !xs.isEmpty && xs.length > 0 then
      ["Citations: " ++ toString xs.length ++ " references available"] else [])

/-- The optional `Aliases: ...` line, guarded by `if result.get(kw):`. -/
def aliasesLines (v : Option PVal) : Except String (List String) :=
  if pyTruthy v then do
    let j ← pyJoinComma v
    Except.ok ["Aliases: " ++ j]
  else
    Except.ok []

/-- Rendering of one technique row of the selective retriever. -/
def renderTechniqueRow (n : StoreNode) : Except String (List String) := do
  let tacticsJ ← pyJoinComma (getP n "tactics")
  let platformsJ ← pyJoinComma (getP n "platforms")
  let descS ← pySliceRender (getP n "description") 300
  let cit ← citationsLine (getP n "citations")
  Except.ok
    (["\nTechnique: " ++ fstr (getP n "technique_id") ++ " - " ++ fstr (getP n "name"),
      "Tactics: " ++ tacticsJ,
      "Platforms: " ++ platformsJ,
      "Description: " ++ descS ++ "..."] ++ cit)

/-- Rendering of one malware row of the selective retriever. -/
def renderMalwareRow (n : StoreNode) : Except String (List String) := do
  let labelsJ ← pyJoinComma (getP n "labels")
  let descS ← pySliceRender (getP n "description") 300
  let cit ← citationsLine (getP n "citations")
  Except.ok
    (["\nMalware: " ++ fstr (getP n "name"),
      "Labels: " ++ labelsJ,
      "Description: " ++ descS ++ "..."] ++ cit)

/-- Rendering of one threat-group row of the selective retriever. -/
def renderGroupRow (n : StoreNode) : Except String (List String) := do
  let al ← aliasesLines (getP n "aliases")
  let descS ← pySliceRender (getP n "description") 300
  let cit ← citationsLine (getP n "citations")
  Except.ok
    (["\nThreat Group: " ++ fstr (getP n "name")] ++ al ++
     ["Description: " ++ descS ++ "..."] ++ cit)

/-- Rendering of one tool row of the selective retriever. -/
def renderToolRow (n : StoreNode) : Except String (List String) := do
  let labelsJ ← pyJoinComma (getP n "labels")
  let descS ← pySliceRender (getP n "description") 300
  let cit ← citationsLine (getP n "citations")
  Except.ok
    (["\nTool: " ++ fstr (getP n "name"),
      "Labels: " ++ labelsJ,
      "Description: " ++ descS ++ "..."] ++ cit)

/-- Rendering of one mitigation row of the selective retriever. -/
def renderMitigationRow (n : StoreNode) : Except String (List String) := do
  let descS ← pySliceRender (getP n "description") 300
  let cit ← citationsLine (getP n "citations")
  Except.ok
    (["\nMitigation: " ++ fstr (getP n "mitigation_id") ++ " - " ++ fstr (getP n "name"),
      "Description: " ++ descS ++ "..."] ++ cit)

/-- Rendering of one data-source row of the selective retriever. -/
def renderDataSourceRow (n : StoreNode) : Except String (List String) := do
  let platformsJ ← pyJoinComma (getP n "platforms")
  let descS ← pySliceRender (getP n "description") 300
  Except.ok
    (["\nData Source: " ++ fstr (getP n "name"),
      "Platforms: " ++ platformsJ,
      "Description: " ++ descS ++ "..."])

/-- Rendering of one campaign row of the selective retriever. -/
def renderCampaignRow (n : StoreNode) : Except String (List String) := do
  let al ← aliasesLines (getP n "aliases")
  let descS ← pySliceRender (getP n "description") 300
  Except.ok
    (["\nCampaign: " ++ fstr (getP n "name")] ++ al ++
     ["Description: " ++ descS ++ "..."])

/-- A generic category block: query (label filter, keyword match, LIMIT),
then a header line followed by the rendered rows when results exist. -/
def categoryBlock (st : Store) (label : String) (match_ : StoreNode → Bool)
    (limit : Nat) (header : String) (render : StoreNode → Except String (List String)) :
    Except String (List String) :=
  let results := (st.nodes.filter (fun n => n.label == label && match_ n)).take limit
  if results.isEmpty then Except.ok []
  else do
    let rows ← results.mapM render
    Except.ok (header :: rows.flatten)

/-- The ATT&CK techniques block of
`get_selective_context_from_knowledge_base`. -/
def techniquesBlock (st : Store) (kws : List String) : Except String (List String) :=
  categoryBlock st "Technique"
    (fun n => fieldsMatch kws [getP n "name", getP n "description", getP n "technique_id"])
    5 "=== ATT&CK TECHNIQUES ===" renderTechniqueRow

/-- The malware block of `get_selective_context_from_knowledge_base`. -/
def malwareBlock (st : Store) (kws : List String) : Except String (List String) :=
  categoryBlock st "Malware"
    (fun n => fieldsMatch kws [getP n "name", getP n "description"])
    5 "\n=== MALWARE ===" renderMalwareRow

/-- The threat-groups block of `get_selective_context_from_knowledge_base`. -/
def threatGroupsBlock (st : Store) (kws : List String) : Except String (List String) :=
  categoryBlock st "ThreatGroup"
    (fun n => fieldsMatch kws [getP n "name", getP n "description"] ||
      aliasMatch kws (getP n "aliases"))
    5 "\n=== THREAT GROUPS ===" renderGroupRow

/-- The tools block of `get_selective_context_from_knowledge_base`. -/
def toolsBlock (st : Store) (kws : List String) : Except String (List String) :=
  categoryBlock st "Tool"
    (fun n => fieldsMatch kws [getP n "name", getP n "description"])
    5 "\n=== TOOLS ===" renderToolRow

/-- The mitigations block of `get_selective_context_from_knowledge_base`. -/
def mitigationsBlock (st : Store) (kws : List String) : Except String (List String) :=
  categoryBlock st "Mitigation"
    (fun n => fieldsMatch kws [getP n "name", getP n "description", getP n "mitigation_id"])
    5 "\n=== MITIGATIONS ===" renderMitigationRow

/-- The data-sources block of `get_selective_context_from_knowledge_base`. -/
def dataSourcesBlock (st : Store) (kws : List String) : Except String (List String) :=
  categoryBlock st "DataSource"
    (fun n => fieldsMatch kws [getP n "name", getP n "description"])
    5 "\n=== DATA SOURCES ===" renderDataSourceRow

/-- The campaigns block of `get_selective_context_from_knowledge_base`. -/
def campaignsBlock (st : Store) (kws : List String) : Except String (List String) :=
  categoryBlock st "Campaign"
    (fun n => fieldsMatch kws [getP n "name", getP n "description"] ||
      aliasMatch kws (getP n "aliases"))
    5 "\n=== CAMPAIGNS ===" renderCampaignRow

/-- The concatenation of the per-category context blocks, in source order,
guarded by membership of the category in `relevant_types`. -/
def categoryContext (st : Store) (kws : List String) (relevantTypes : List String) :
    Except String (List String) :=
  Except.bind
    (if relevantTypes.contains "techniques" then techniquesBlock st kws else Except.ok [])
    (fun t => Except.bind
      (if relevantTypes.contains "malware" then malwareBlock st kws else Except.ok [])
      (fun m => Except.bind
        (if relevantTypes.contains "threat_groups" then threatGroupsBlock st kws else Except.ok [])
        (fun g => Except.bind
          (if relevantTypes.contains "tools" then toolsBlock st kws else Except.ok [])
          (fun tl => Except.bind
            (if relevantTypes.contains "mitigations" then mitigationsBlock st kws else Except.ok [])
            (fun mi => Except.bind
              (if relevantTypes.contains "data_sources" then dataSourcesBlock st kws else Except.ok [])
              (fun ds => Except.bind
                (if relevantTypes.contains "campaigns" then campaignsBlock st kws else Except.ok [])
                (fun c => Except.ok (t ++ m ++ g ++ tl ++ mi ++ ds ++ c))))))))

/-- The broader-search match: only the first two keyword conditions (both
conditions of the first keyword) against `n.name` and `n.description`. -/
def broadMatch (kws : List String) (n : StoreNode) : Bool :=
  match kws with
  | [] => false
  | kw0 :: _ => kwCond kw0 (getP n "name") || kwCond kw0 (getP n "description")

/-- The broader-search query results (all labels, LIMIT 10). -/
def broadResults (st : Store) (kws : List String) : List StoreNode :=
  (st.nodes.filter (fun n => broadMatch kws n)).take 10

/-- Rendering of one broader-search row: the node's first label and name,
plus a truncated description when present. -/
def renderBroadRow (n : StoreNode) : Except String (List String) := do
  let base := ["\n" ++ n.label ++ ": " ++ fstr (getP n "name")]
  if pyTruthy (getP n "description") then do
    let d ← pySliceRender (getP n "description") 200
    Except.ok (base ++ ["Description: " ++ d ++ "..."])
  else
    Except.ok base

/-- The fixed message of the final (dead) branch of
`get_selective_context_from_knowledge_base`. -/
def noInfoMsg : String := "No relevant information found in the knowledge base."

/-- The header line of the broader-search fallback. -/
def broaderHeader : String := "=== BROADER SEARCH RESULTS ==="

/-- `get_selective_context_from_knowledge_base(graph, keywords,
relevant_types)`.  An empty keyword list makes every generated Cypher
query malformed (an empty WHERE clause), so the first executed query
raises and the function re-raises; this is the `Except.error` case along
with the render-time TypeErrors modelled above. -/
def getSelectiveContext (st : Store) (keywords : List String)
    (relevantTypes : List String) : Except String String :=
  if keywords.isEmpty then
    Except.error "Error in selective knowledge base query: empty keyword condition list"
  else
    Except.bind (categoryContext st keywords relevantTypes) (fun ctx =>
      Except.bind
        (if ctx.isEmpty then
          Except.map (fun rows => broaderHeader :: List.flatten rows)
            ((broadResults st keywords).mapM renderBroadRow)
        else
          Except.ok ctx)
        (fun ctx2 => Except.ok (if ctx2.isEmpty then noInfoMsg else joinSep "\n" ctx2)))

/-- A JSON value of the intent-classifier response relevant to
`analyze_user_query`: a string or a list of strings (other JSON shapes
behave like the string case for the `isinstance(..., list)` checks and
are not distinguished by the code paths modelled here). -/
inductive PyVal where
  | vstr (s : String)
  | vlist (xs : List String)
deriving DecidableEq, Repr

/-- The parsed JSON object returned by the classifier LLM, with the four
fields `analyze_user_query` inspects; `none` is an absent or null field. -/
structure RawAnalysis where
  relevant_types : Option PyVal := none
  keywords : Option PyVal := none
  focus : Option PyVal := none
  framework_filter : Option PyVal := none
deriving DecidableEq, Repr

/-- The analysis dict `analyze_user_query` returns after validation. -/
structure QueryAnalysis where
  relevant_types : List String
  keywords : List String
  focus : PyVal
  framework_filter : PyVal
deriving DecidableEq, Repr

/-- Python truthiness of an optional classifier field value. -/
def pyValTruthy : Option PyVal → Bool
  | none => false
  | some (PyVal.vstr s) => !(s == "")
  | some (PyVal.vlist xs) => !xs.isEmpty

/-- Whether a classifier field value is a Python list. -/
def isListVal : Option PyVal → Bool
  | some (PyVal.vlist _) => true
  | _ => false

/-- The per-scope default category list substituted by the validation
branch of `analyze_user_query` when `relevant_types` is not a list. -/
def validationDefaultTypes (scope : String) : List String :=
  if scope = "ATT&CK Only" then ["techniques", "malware", "threat_groups"]
  else if scope = "CIS Controls" then ["cis_controls", "cis_safeguards"]
  else if scope = "NIST CSF" then ["nist_functions", "nist_categories"]
  else if scope = "HIPAA" then ["hipaa_regulations", "hipaa_sections"]
  else if scope = "FFIEC" then ["ffiec_categories", "ffiec_procedures"]
  else if scope = "PCI DSS" then ["pci_requirements", "pci_procedures"]
  else ["techniques", "cis_controls", "nist_functions"]

/-- The fallback analysis returned by the `except` branch of
`analyze_user_query` when the LLM call or the JSON parse raises. -/
def exceptionFallbackAnalysis (q scope : String) : QueryAnalysis :=
  if scope = "ATT&CK Only" then
    { relevant_types := ["techniques", "malware", "threat_groups"]
      keywords := [q]
      focus := PyVal.vstr "ATT&CK framework inquiry"
      framework_filter := PyVal.vstr scope }
  else if scope = "CIS Controls" then
    { relevant_types := ["cis_controls", "cis_safeguards"]
      keywords := [q]
      focus := PyVal.vstr "CIS Controls inquiry"
      framework_filter := PyVal.vstr scope }
  else
    { relevant_types := ["techniques", "cis_controls", "nist_functions"]
      keywords := [q]
      focus := PyVal.vstr "multi-framework cybersecurity inquiry"
      framework_filter := PyVal.vstr scope }

/-- `analyze_user_query(llm, user_question, framework_scope)`:
`llmParsed = none` models the LLM call raising or its response failing to
parse as a JSON object; `some r` models a successfully parsed object,
which is then field-validated. -/
def analyzeUserQuery (llmParsed : Option RawAnalysis) (q scope : String) :
    QueryAnalysis :=
  match llmParsed with
  | none => exceptionFallbackAnalysis q scope
  | some r =>
    { relevant_types :=
        match r.relevant_types with
        | some (PyVal.vlist xs) => xs
        | _ => validationDefaultTypes scope
      keywords :=
        match r.keywords with
        | some (PyVal.vlist xs) => xs
        | _ => [q]
      focus :=
        if pyValTruthy r.focus then r.focus.getD (PyVal.vstr "")
        else PyVal.vstr ("cybersecurity inquiry within " ++ scope)
      framework_filter :=
        if pyValTruthy r.framework_filter then r.framework_filter.getD (PyVal.vstr "")
        else PyVal.vstr scope }

/-- The node label produced by each object-producing branch of the
`process_attack_objects` dispatch chain; `none` for a type with no
branch, which falls through to the `other` counter (the `relationship`
type is dispatched separately and produces no node). -/
def attackTypeLabel (t : String) : Option String :=
  if t = "attack-pattern" then some "Technique"
  else if t = "malware" then some "Malware"
  else if t = "intrusion-set" then some "ThreatGroup"
  else if t = "tool" then some "Tool"
  else if t = "course-of-action" then some "Mitigation"
  else if t = "x-mitre-data-source" then some "DataSource"
  else if t = "x-mitre-data-component" then some "DataComponent"
  else if t = "campaign" then some "Campaign"
  else none

/-- Modelled from the spec (section 4.1): the claimed nine-entry STIX
type-to-label table, stated here only to compare it against the dispatch
the code actually implements. -/
def specStixTypeLabel (t : String) : Option String :=
  if t = "attack-pattern" then some "Technique"
  else if t = "malware" then some "Malware"
  else if t = "intrusion-set" then some "ThreatGroup"
  else if t = "tool" then some "Tool"
  else if t = "course-of-action" then some "Mitigation"
  else if t = "x-mitre-tactic" then some "Tactic"
  else if t = "x-mitre-data-source" then some "DataSource"
  else if t = "x-mitre-data-component" then some "DataComponent"
  else if t = "campaign" then some "Campaign"
  else none

/-- Modelled from the spec (section 4.2 Citation Extractor): one string
per external reference combining the present components of identifier,
source name and URL joined by a fixed delimiter, skipping references with
none of the three; stated here only to compare it against what the code
attaches to nodes. -/
def specExtractCitations (refs : List ExtRef) : List String :=
  refs.filterMap (fun r =>
    let parts := [r.external_id, r.source_name, r.url].filter (fun x => !(x == ""))
    if parts.isEmpty then none else some (joinSep " | " parts))

/-- Python `not s.strip()` with the default whitespace set: true iff the
string consists only of whitespace characters. -/
def pyBlank (s : String) : Bool :=
  s.data.all (fun c =>
    c == ' ' || c == '\t' || c == '\n' || c == '\r' ||
    c == Char.ofNat 11 || c == Char.ofNat 12)

/-- A CIS safeguard entry of the extracted or sample CIS tree. -/
structure CisSafeguard where
  id : String
  description : String
  asset_type : String
  security_function : String
  implementation_groups : List String
deriving DecidableEq, Repr

/-- A CIS control entry of the extracted or sample CIS tree. -/
structure CisControl where
  id : String
  name : String
  description : String
  safeguards : List CisSafeguard
deriving DecidableEq, Repr

/-- The CIS tree dict: `controls = none` models a parsed JSON object with
no `controls` key (or a null value). -/
structure CisData where
  version : String := ""
  publication_date : String := ""
  document_title : String := ""
  controls : Option (List CisControl) := none
deriving DecidableEq, Repr

/-- A NIST CSF subcategory entry. -/
structure NistSubcategory where
  id : String
  description : String
deriving DecidableEq, Repr

/-- A NIST CSF category entry. -/
structure NistCategory where
  id : String
  name : String
  description : String
  subcategories : List NistSubcategory
deriving DecidableEq, Repr

/-- A NIST CSF function entry. -/
structure NistFunction where
  id : String
  name : String
  description : String
  categories : List NistCategory
deriving DecidableEq, Repr

/-- The NIST CSF tree dict; `functions = none` models a missing key. -/
structure NistData where
  version : String := ""
  publication_date : String := ""
  document_title : String := ""
  functions : Option (List NistFunction) := none
deriving DecidableEq, Repr

/-- A HIPAA requirement entry. -/
structure HipaaRequirement where
  id : String
  description : String
  entity_type : String
  information_type : String
deriving DecidableEq, Repr

/-- A HIPAA section entry. -/
structure HipaaSection where
  id : String
  title : String
  description : String
  requirements : List HipaaRequirement
deriving DecidableEq, Repr

/-- A HIPAA regulation entry. -/
structure HipaaRegulation where
  id : String
  title : String
  description : String
  cfr_reference : String
  sections : List HipaaSection
deriving DecidableEq, Repr

/-- The HIPAA tree dict; `regulations = none` models a missing key. -/
structure HipaaData where
  document_title : String := ""
  publication_date : String := ""
  regulations : Option (List HipaaRegulation) := none
deriving DecidableEq, Repr

/-- An FFIEC examination step entry. -/
structure FfiecStep where
  id : String
  description : String
  risk_area : String
  control_objective : String
deriving DecidableEq, Repr

/-- An FFIEC examination procedure entry. -/
structure FfiecProcedure where
  id : String
  title : String
  description : String
  examination_steps : List FfiecStep
deriving DecidableEq, Repr

/-- An FFIEC section entry. -/
structure FfiecSection where
  id : String
  title : String
  description : String
  examination_procedures : List FfiecProcedure
deriving DecidableEq, Repr

/-- The FFIEC tree dict; `sections = none` models a missing key. -/
structure FfiecData where
  document_title : String := ""
  publication_year : String := ""
  sections : Option (List FfiecSection) := none
deriving DecidableEq, Repr

/-- A PCI DSS testing procedure entry. -/
structure PciTestingProcedure where
  id : String
  description : String
  guidance : String
deriving DecidableEq, Repr

/-- A PCI DSS sub-requirement entry. -/
structure PciSubRequirement where
  id : String
  description : String
  testing_procedures : List PciTestingProcedure
deriving DecidableEq, Repr

/-- A PCI DSS requirement entry. -/
structure PciRequirement where
  id : String
  title : String
  description : String
  sub_requirements : List PciSubRequirement
deriving DecidableEq, Repr

/-- The PCI DSS tree dict; `requirements = none` models a missing key. -/
structure PciData where
  document_title : String := ""
  publication_date : String := ""
  requirements : Option (List PciRequirement) := none
deriving DecidableEq, Repr
/-- The controls list of the static fallback tree of CISIngestion._get_sample_cis_data. -/
def sampleCisControls : List CisControl :=
  [{ id := "CIS-1", name := "Inventory and Control of Enterprise Assets", description := "Actively manage (inventory, track, and correct) all enterprise assets connected to the infrastructure physically, virtually, remotely, and those within cloud environments.", safeguards := [{ id := "1.1", description := "Establish and maintain detailed enterprise asset inventory", asset_type := "Devices", security_function := "Identify", implementation_groups := ["IG1", "IG2", "IG3"] }, { id := "1.2", description := "Address unauthorized assets", asset_type := "Devices", security_function := "Respond", implementation_groups := ["IG1", "IG2", "IG3"] }, { id := "1.3", description := "Utilize an active discovery tool", asset_type := "Devices", security_function := "Identify", implementation_groups := ["IG2", "IG3"] }, { id := "1.4", description := "Use Dynamic Host Configuration Protocol (DHCP) logging", asset_type := "Network", security_function := "Detect", implementation_groups := ["IG2", "IG3"] }, { id := "1.5", description := "Use a passive asset discovery tool", asset_type := "Network", security_function := "Identify", implementation_groups := ["IG3"] }] },
   { id := "CIS-2", name := "Inventory and Control of Software Assets", description := "Actively manage (inventory, track, and correct) all software on the network so that only authorized software is installed and can execute.", safeguards := [{ id := "2.1", description := "Establish and maintain software inventory", asset_type := "Applications", security_function := "Identify", implementation_groups := ["IG1", "IG2", "IG3"] }, { id := "2.2", description := "Ensure authorized software is currently supported", asset_type := "Applications", security_function := "Identify", implementation_groups := ["IG1", "IG2", "IG3"] }, { id := "2.3", description := "Address unauthorized software", asset_type := "Applications", security_function := "Respond", implementation_groups := ["IG1", "IG2", "IG3"] }, { id := "2.4", description := "Utilize automated software inventory tools", asset_type := "Applications", security_function := "Identify", implementation_groups := ["IG2", "IG3"] }, { id := "2.5", description := "Allowlist authorized software", asset_type := "Applications", security_function := "Protect", implementation_groups := ["IG2", "IG3"] }, { id := "2.6", description := "Allowlist authorized libraries", asset_type := "Applications", security_function := "Protect", implementation_groups := ["IG3"] }, { id := "2.7", description := "Allowlist authorized scripts", asset_type := "Applications", security_function := "Protect", implementation_groups := ["IG3"] }] },
   { id := "CIS-3", name := "Data Protection", description := "Develop processes and technical controls to identify, classify, securely handle, retain, and dispose of data.", safeguards := [{ id := "3.1", description := "Establish and maintain data management process", asset_type := "Data", security_function := "Protect", implementation_groups := ["IG1", "IG2", "IG3"] }, { id := "3.2", description := "Establish and maintain data inventory", asset_type := "Data", security_function := "Identify", implementation_groups := ["IG1", "IG2", "IG3"] }, { id := "3.3", description := "Configure data access control lists", asset_type := "Data", security_function := "Protect", implementation_groups := ["IG1", "IG2", "IG3"] }, { id := "3.4", description := "Enforce data retention", asset_type := "Data", security_function := "Protect", implementation_groups := ["IG1", "IG2", "IG3"] }, { id := "3.5", description := "Securely dispose of data", asset_type := "Data", security_function := "Protect", implementation_groups := ["IG1", "IG2", "IG3"] }, { id := "3.6", description := "Encrypt data on end-user devices", asset_type := "Data", security_function := "Protect", implementation_groups := ["IG2", "IG3"] }, { id := "3.7", description := "Establish and maintain data classification scheme", asset_type := "Data", security_function := "Identify", implementation_groups := ["IG2", "IG3"] }, { id := "3.8", description := "Document data flows", asset_type := "Data", security_function := "Identify", implementation_groups := ["IG2", "IG3"] }, { id := "3.9", description := "Encrypt data on removable media", asset_type := "Data", security_function := "Protect", implementation_groups := ["IG2", "IG3"] }, { id := "3.10", description := "Encrypt sensitive data in transit", asset_type := "Data", security_function := "Protect", implementation_groups := ["IG2", "IG3"] }, { id := "3.11", description := "Encrypt sensitive data at rest", asset_type := "Data", security_function := "Protect", implementation_groups := ["IG2", "IG3"] }, { id := "3.12", description := "Segment data processing and storage", asset_type := "Network", security_function := "Protect", implementation_groups := ["IG3"] }, { id := "3.13", description := "Deploy a data loss prevention solution", asset_type := "Data", security_function := "Detect", implementation_groups := ["IG3"] }, { id := "3.14", description := "Log sensitive data access", asset_type := "Data", security_function := "Detect", implementation_groups := ["IG3"] }] },
   { id := "CIS-4", name := "Secure Configuration of Enterprise Assets and Software", description := "Establish and maintain the secure configuration of enterprise assets (end-user devices, including portable and mobile; network devices; non-computing/IoT devices; and servers) and software (operating systems and applications).", safeguards := [{ id := "4.1", description := "Establish and maintain secure configuration process", asset_type := "Devices", security_function := "Protect", implementation_groups := ["IG1", "IG2", "IG3"] }, { id := "4.2", description := "Establish and maintain secure configuration for enterprise assets", asset_type := "Devices", security_function := "Protect", implementation_groups := ["IG1", "IG2", "IG3"] }, { id := "4.3", description := "Configure automatic session locking", asset_type := "Devices", security_function := "Protect", implementation_groups := ["IG1", "IG2", "IG3"] }, { id := "4.4", description := "Implement and manage a firewall", asset_type := "Network", security_function := "Protect", implementation_groups := ["IG1", "IG2", "IG3"] }, { id := "4.5", description := "Implement and manage default network controls", asset_type := "Network", security_function := "Protect", implementation_groups := ["IG1", "IG2", "IG3"] }] },
   { id := "CIS-5", name := "Account Management", description := "Use processes and tools to assign and manage authorization to credentials for user accounts, including administrator accounts, as well as service accounts, to enterprise assets and software.", safeguards := [{ id := "5.1", description := "Establish and maintain an inventory of accounts", asset_type := "Users", security_function := "Identify", implementation_groups := ["IG1", "IG2", "IG3"] }, { id := "5.2", description := "Use unique passwords", asset_type := "Users", security_function := "Protect", implementation_groups := ["IG1", "IG2", "IG3"] }, { id := "5.3", description := "Disable dormant accounts", asset_type := "Users", security_function := "Protect", implementation_groups := ["IG1", "IG2", "IG3"] }, { id := "5.4", description := "Restrict administrator privileges to dedicated accounts", asset_type := "Users", security_function := "Protect", implementation_groups := ["IG1", "IG2", "IG3"] }, { id := "5.5", description := "Establish and maintain an inventory of service accounts", asset_type := "Users", security_function := "Identify", implementation_groups := ["IG2", "IG3"] }, { id := "5.6", description := "Centralize account management", asset_type := "Users", security_function := "Protect", implementation_groups := ["IG2", "IG3"] }] }]

/-- The static fallback tree of CISIngestion._get_sample_cis_data. -/
def sampleCisData : CisData :=
  { version := "8.1", publication_date := "June 2024", document_title := "CIS Controls v8.1 Guide", controls := some sampleCisControls }

/-- The functions list of the static fallback tree of NISTIngestion._get_sample_nist_data. -/
def sampleNistFunctions : List NistFunction :=
  [{ id := "GV", name := "Govern", description := "The organization\x27s cybersecurity risk management strategy, expectations, and policy are established, communicated, and monitored.", categories := [{ id := "GV.OC", name := "Organizational Context", description := "The circumstances that influence the organization\x27s cybersecurity risk management decisions are understood.", subcategories := [{ id := "GV.OC-01", description := "The organizational mission is understood and informs cybersecurity risk management decisions." }, { id := "GV.OC-02", description := "Internal and external stakeholders are understood, and their needs and expectations regarding cybersecurity risk management are understood and considered." }, { id := "GV.OC-03", description := "Legal, regulatory, and contractual requirements regarding cybersecurity are understood and managed." }] }, { id := "GV.RM", name := "Risk Management Strategy", description := "The organization\x27s priorities, constraints, risk tolerance and risk appetite are established and used to support operational risk decisions.", subcategories := [{ id := "GV.RM-01", description := "Risk management processes are established, managed, and agreed to by organizational stakeholders." }, { id := "GV.RM-02", description := "Risk appetite and risk tolerance statements are established, communicated, and maintained." }] }] },
   { id := "ID", name := "Identify", description := "The organization\x27s current cybersecurity risks are understood.", categories := [{ id := "ID.AM", name := "Asset Management", description := "Assets that enable the organization to achieve business purposes are identified and managed consistent with their relative importance to organizational objectives and the organization\x27s risk strategy.", subcategories := [{ id := "ID.AM-01", description := "Physical devices and systems within the organization are inventoried." }, { id := "ID.AM-02", description := "Software platforms and applications within the organization are inventoried." }, { id := "ID.AM-03", description := "Organizational communication and data flows are mapped." }] }, { id := "ID.RA", name := "Risk Assessment", description := "The organization understands the cybersecurity risk to organizational operations, organizational assets, and individuals.", subcategories := [{ id := "ID.RA-01", description := "Asset vulnerabilities are identified and documented." }, { id := "ID.RA-02", description := "Cyber threat intelligence is received from information sharing forums and sources." }] }] },
   { id := "PR", name := "Protect", description := "Safeguards to manage the organization\x27s cybersecurity risks are used.", categories := [{ id := "PR.AC", name := "Identity Management, Authentication and Access Control", description := "Access to physical and logical assets and associated facilities is limited to authorized users, processes, and devices.", subcategories := [{ id := "PR.AC-01", description := "Identities and credentials are issued, managed, verified, revoked, and audited for authorized devices, users and processes." }, { id := "PR.AC-02", description := "Physical access to assets is managed and protected." }] }, { id := "PR.AT", name := "Awareness and Training", description := "The organization\x27s personnel and partners are provided cybersecurity awareness education and are trained to perform their cybersecurity-related duties and responsibilities.", subcategories := [{ id := "PR.AT-01", description := "All users are informed and trained." }, { id := "PR.AT-02", description := "Privileged users understand their roles and responsibilities." }] }] },
   { id := "DE", name := "Detect", description := "Possible cybersecurity attacks and compromises are found and analyzed.", categories := [{ id := "DE.AE", name := "Anomalies and Events", description := "Anomalous activity is detected and the potential impact of events is understood.", subcategories := [{ id := "DE.AE-01", description := "A baseline of network operations and expected data flows for users and systems is established and managed." }, { id := "DE.AE-02", description := "Detected events are analyzed to understand attack targets and methods." }] }, { id := "DE.CM", name := "Continuous Security Monitoring", description := "The information system and assets are monitored to identify cybersecurity events and verify the effectiveness of protective measures.", subcategories := [{ id := "DE.CM-01", description := "Networks and network communications are monitored." }, { id := "DE.CM-02", description := "The physical environment is monitored." }] }] },
   { id := "RS", name := "Respond", description := "Actions regarding a detected cybersecurity incident are taken.", categories := [{ id := "RS.RP", name := "Response Planning", description := "Response processes and procedures are executed and maintained, to ensure response to detected cybersecurity incidents.", subcategories := [{ id := "RS.RP-01", description := "Response plan is executed during or after an incident." }, { id := "RS.RP-02", description := "Response strategies are updated." }] }] },
   { id := "RC", name := "Recover", description := "Activities to maintain plans for resilience and to restore any capabilities or services that were impaired due to a cybersecurity incident.", categories := [{ id := "RC.RP", name := "Recovery Planning", description := "Recovery processes and procedures are executed and maintained to ensure restoration of systems or assets affected by cybersecurity incidents.", subcategories := [{ id := "RC.RP-01", description := "Recovery plan is executed during or after a cybersecurity incident." }, { id := "RC.RP-02", description := "Recovery strategies are updated." }] }] }]

/-- The static fallback tree of NISTIngestion._get_sample_nist_data. -/
def sampleNistData : NistData :=
  { version := "2.0", publication_date := "February 2024", document_title := "NIST Cybersecurity Framework 2.0", functions := some sampleNistFunctions }

/-- The regulations list of the static fallback tree of HIPAAIngestion._get_sample_hipaa_data. -/
def sampleHipaaRegulations : List HipaaRegulation :=
  [{ id := "SECURITY-RULE", title := "Security Standards for the Protection of Electronic Protected Health Information", description := "Establishes a national set of security standards for protecting certain health information that is held or transferred in electronic form.", cfr_reference := "45 CFR Part 164.306-318", sections := [{ id := "164.306", title := "Security standards: General rules", description := "A covered entity or business associate must comply with the applicable standards, implementation specifications, and requirements.", requirements := [{ id := "164.306-a-1", description := "Ensure the confidentiality, integrity, and availability of all electronic protected health information", entity_type := "covered entity, business associate", information_type := "ePHI" }, { id := "164.306-a-2", description := "Protect against any reasonably anticipated threats or hazards to the security or integrity of such information", entity_type := "covered entity, business associate", information_type := "ePHI" }] }, { id := "164.308", title := "Administrative safeguards", description := "A covered entity or business associate must implement administrative safeguards.", requirements := [{ id := "164.308-a-1", description := "Implement policies and procedures to prevent, detect, contain, and correct security violations", entity_type := "covered entity, business associate", information_type := "ePHI" }, { id := "164.308-a-2", description := "Assign a unique name and/or number for identifying and tracking user identity", entity_type := "covered entity, business associate", information_type := "ePHI" }] }] },
   { id := "PRIVACY-RULE", title := "Privacy of Individually Identifiable Health Information", description := "Establishes a national set of standards for the protection of certain health information.", cfr_reference := "45 CFR Part 164.500-534", sections := [{ id := "164.502", title := "Uses and disclosures of protected health information: General rules", description := "A covered entity may not use or disclose protected health information, except as permitted or required.", requirements := [{ id := "164.502-a", description := "Permitted uses and disclosures. A covered entity is permitted to use or disclose protected health information", entity_type := "covered entity", information_type := "PHI" }] }] }]

/-- The static fallback tree of HIPAAIngestion._get_sample_hipaa_data. -/
def sampleHipaaData : HipaaData :=
  { document_title := "HIPAA Administrative Simplification", publication_date := "March 2013", regulations := some sampleHipaaRegulations }

/-- The sections list of the static fallback tree of FFIECIngestion._get_sample_ffiec_data. -/
def sampleFfiecSections : List FfiecSection :=
  [{ id := "GOVERNANCE-RISK-MGMT", title := "Governance and Risk Management", description := "Examination procedures for evaluating governance and risk management of information security programs.", examination_procedures := [{ id := "PROC-GOV-001", title := "Information Security Program Governance", description := "Evaluate the effectiveness of the information security program governance structure.", examination_steps := [{ id := "STEP-GOV-001-1", description := "Review board and senior management oversight of information security program", risk_area := "governance", control_objective := "Ensure adequate board and management oversight" }, { id := "STEP-GOV-001-2", description := "Assess information security policy framework and approval processes", risk_area := "governance", control_objective := "Establish comprehensive policy framework" }] }, { id := "PROC-RISK-001", title := "Information Security Risk Assessment", description := "Evaluate the institution\x27s risk assessment process for information security.", examination_steps := [{ id := "STEP-RISK-001-1", description := "Review risk assessment methodology and frequency", risk_area := "operational", control_objective := "Implement comprehensive risk assessment" }, { id := "STEP-RISK-001-2", description := "Assess identification and evaluation of information security threats", risk_area := "operational", control_objective := "Identify and evaluate security threats" }] }] },
   { id := "ACCESS-CONTROLS", title := "Access Controls", description := "Examination procedures for evaluating access control systems and processes.", examination_procedures := [{ id := "PROC-ACCESS-001", title := "User Access Management", description := "Evaluate user access provisioning, modification, and termination processes.", examination_steps := [{ id := "STEP-ACCESS-001-1", description := "Review user access provisioning procedures and approvals", risk_area := "operational", control_objective := "Ensure appropriate user access provisioning" }, { id := "STEP-ACCESS-001-2", description := "Test user access termination processes for departed employees", risk_area := "operational", control_objective := "Ensure timely access termination" }] }, { id := "PROC-PRIV-001", title := "Privileged Access Controls", description := "Evaluate controls over privileged user access and administrative accounts.", examination_steps := [{ id := "STEP-PRIV-001-1", description := "Review privileged account management and monitoring procedures", risk_area := "operational", control_objective := "Control privileged account access" }] }] },
   { id := "INCIDENT-RESPONSE", title := "Incident Response and Business Continuity", description := "Examination procedures for incident response and business continuity planning.", examination_procedures := [{ id := "PROC-INC-001", title := "Incident Response Program", description := "Evaluate the effectiveness of the incident response program.", examination_steps := [{ id := "STEP-INC-001-1", description := "Review incident response plan and procedures", risk_area := "operational", control_objective := "Establish effective incident response" }, { id := "STEP-INC-001-2", description := "Assess incident detection and reporting mechanisms", risk_area := "operational", control_objective := "Enable timely incident detection" }] }] },
   { id := "NETWORK-SECURITY", title := "Network Security Controls", description := "Examination procedures for network security architecture and controls.", examination_procedures := [{ id := "PROC-NET-001", title := "Network Architecture Security", description := "Evaluate network security architecture and segmentation controls.", examination_steps := [{ id := "STEP-NET-001-1", description := "Review network segmentation and DMZ configurations", risk_area := "technical", control_objective := "Implement secure network architecture" }, { id := "STEP-NET-001-2", description := "Test firewall rules and intrusion detection systems", risk_area := "technical", control_objective := "Monitor and control network traffic" }] }] },
   { id := "VENDOR-MGMT", title := "Vendor and Third-Party Risk Management", description := "Examination procedures for third-party service provider risk management.", examination_procedures := [{ id := "PROC-VENDOR-001", title := "Third-Party Due Diligence", description := "Evaluate due diligence processes for third-party service providers.", examination_steps := [{ id := "STEP-VENDOR-001-1", description := "Review vendor assessment and selection criteria", risk_area := "operational", control_objective := "Establish vendor selection criteria" }, { id := "STEP-VENDOR-001-2", description := "Assess ongoing vendor monitoring and oversight processes", risk_area := "operational", control_objective := "Monitor vendor performance and risks" }] }] }]

/-- The static fallback tree of FFIECIngestion._get_sample_ffiec_data. -/
def sampleFfiecData : FfiecData :=
  { document_title := "FFIEC IT Handbook Information Security Booklet", publication_year := "2016", sections := some sampleFfiecSections }

/-- The requirements list of the static fallback tree of PCIDSSIngestion._get_sample_pci_dss_data. -/
def samplePciRequirements : List PciRequirement :=
  [{ id := "REQ-1", title := "Install and maintain network security controls", description := "Install and maintain a firewall configuration to protect cardholder data", sub_requirements := [{ id := "REQ-1.1", description := "Processes and mechanisms for installing and maintaining network security controls are defined and understood", testing_procedures := [{ id := "TEST-1.1.1", description := "Examine documentation to verify processes and mechanisms are defined and documented", guidance := "Consider organizational structure and business goals when defining processes" }] }, { id := "REQ-1.2", description := "Network security controls (NSCs) are configured and maintained", testing_procedures := [{ id := "TEST-1.2.1", description := "Examine NSC rule sets to verify configuration is documented and justified", guidance := "All inbound and outbound traffic should be explicitly authorized" }, { id := "TEST-1.2.2", description := "Interview personnel and examine documentation to verify NSCs are reviewed at least once every six months", guidance := "Reviews should identify and remove unnecessary rules and configurations" }] }] },
   { id := "REQ-2", title := "Apply secure configurations to all system components", description := "Apply secure configurations to all system components", sub_requirements := [{ id := "REQ-2.1", description := "Processes and mechanisms for applying secure configurations to all system components are defined and understood", testing_procedures := [{ id := "TEST-2.1.1", description := "Examine documentation to verify processes and mechanisms are defined", guidance := "Secure configurations should be based on industry standards and vendor recommendations" }] }, { id := "REQ-2.2", description := "System components are configured securely", testing_procedures := [{ id := "TEST-2.2.1", description := "Examine system configurations to verify only necessary services are enabled", guidance := "All unnecessary services, protocols, and software should be removed or disabled" }, { id := "TEST-2.2.2", description := "Verify vendor default accounts are removed or changed before deployment", guidance := "Default passwords must be changed and unnecessary default accounts removed" }] }] },
   { id := "REQ-3", title := "Protect stored account data", description := "Protect stored cardholder data", sub_requirements := [{ id := "REQ-3.1", description := "Processes and mechanisms for protecting stored account data are defined and understood", testing_procedures := [{ id := "TEST-3.1.1", description := "Examine documentation to verify data protection processes are defined", guidance := "Include data retention, disposal, and encryption requirements" }] }, { id := "REQ-3.3", description := "Sensitive authentication data is not stored after authorization", testing_procedures := [{ id := "TEST-3.3.1", description := "Examine data stores to verify sensitive authentication data is not retained", guidance := "This includes full track data, card verification codes, and PINs" }] }] },
   { id := "REQ-8", title := "Identify users and authenticate access to system components", description := "Identify and authenticate access to system components", sub_requirements := [{ id := "REQ-8.1", description := "Processes and mechanisms for identifying and authenticating access to system components are defined and understood", testing_procedures := [{ id := "TEST-8.1.1", description := "Examine documentation to verify authentication processes are defined", guidance := "Include user identification, authentication methods, and access controls" }] }, { id := "REQ-8.2", description := "User identification and related accounts for users and administrators are strictly managed", testing_procedures := [{ id := "TEST-8.2.1", description := "Examine user accounts to verify each has a unique ID", guidance := "Shared or generic accounts should not be used except for system accounts" }, { id := "TEST-8.2.2", description := "Verify addition, deletion, and modification of user IDs and credentials are authorized", guidance := "All account changes should follow established approval processes" }] }] },
   { id := "REQ-11", title := "Test security of systems and networks regularly", description := "Regularly test security systems and processes", sub_requirements := [{ id := "REQ-11.1", description := "Processes and mechanisms for regularly testing security of systems and networks are defined and understood", testing_procedures := [{ id := "TEST-11.1.1", description := "Examine documentation to verify testing processes are defined", guidance := "Include vulnerability scanning, penetration testing, and security monitoring" }] }, { id := "REQ-11.3", description := "External and internal penetration testing is regularly performed", testing_procedures := [{ id := "TEST-11.3.1", description := "Examine penetration testing methodology to verify it meets requirements", guidance := "Testing should cover network and application layer vulnerabilities" }, { id := "TEST-11.3.2", description := "Verify penetration testing is performed at least annually", guidance := "Additional testing required after significant infrastructure changes" }] }] },
   { id := "REQ-12", title := "Support information security with organizational policies and programs", description := "Maintain a policy that addresses information security for all personnel", sub_requirements := [{ id := "REQ-12.1", description := "A comprehensive information security policy is established and published", testing_procedures := [{ id := "TEST-12.1.1", description := "Examine the information security policy to verify it addresses all PCI DSS requirements", guidance := "Policy should be approved by management and communicated to all personnel" }] }, { id := "REQ-12.6", description := "Security awareness education is provided to all personnel", testing_procedures := [{ id := "TEST-12.6.1", description := "Examine security awareness program to verify it addresses security policies and procedures", guidance := "Training should occur upon hire and at least annually thereafter" }] }] }]

/-- The static fallback tree of PCIDSSIngestion._get_sample_pci_dss_data. -/
def samplePciData : PciData :=
  { document_title := "PCI DSS v4.0.1", publication_date := "December 2022", requirements := some samplePciRequirements }

/-- `CISIngestion._extract_cis_structure_with_llm(pdf_text)`: blank input
text falls back to the sample tree; `llmParsed = none` models the LLM
call raising or its response failing to parse as JSON; a parsed object
with a missing or empty `controls` collection also falls back. -/
def extractCisStructureWithLlm (pdfText : String) (llmParsed : Option CisData) :
    CisData :=
  if pyBlank pdfText then sampleCisData
  else
    match llmParsed with
    | none => sampleCisData
    | some d =>
      match d.controls with
      | some l => if l.length > 0 then d else sampleCisData
      | none => sampleCisData

/-- `NISTIngestion._extract_nist_structure_with_llm(pdf_text)`. -/
def extractNistStructureWithLlm (pdfText : String) (llmParsed : Option NistData) :
    NistData :=
  if pyBlank pdfText then sampleNistData
  else
    match llmParsed with
    | none => sampleNistData
    | some d =>
      match d.functions with
      | some l => if l.length > 0 then d else sampleNistData
      | none => sampleNistData

/-- `HIPAAIngestion._extract_hipaa_structure_with_llm(pdf_text)`. -/
def extractHipaaStructureWithLlm (pdfText : String) (llmParsed : Option HipaaData) :
    HipaaData :=
  if pyBlank pdfText then sampleHipaaData
  else
    match llmParsed with
    | none => sampleHipaaData
    | some d =>
      match d.regulations with
      | some l => if l.length > 0 then d else sampleHipaaData
      | none => sampleHipaaData

/-- `FFIECIngestion._extract_ffiec_structure_with_llm(pdf_text)`. -/
def extractFfiecStructureWithLlm (pdfText : String) (llmParsed : Option FfiecData) :
    FfiecData :=
  if pyBlank pdfText then sampleFfiecData
  else
    match llmParsed with
    | none => sampleFfiecData
    | some d =>
      match d.sections with
      | some l => if l.length > 0 then d else sampleFfiecData
      | none => sampleFfiecData

/-- `PCIDSSIngestion._extract_pci_dss_structure_with_llm(pdf_text)`. -/
def extractPciStructureWithLlm (pdfText : String) (llmParsed : Option PciData) :
    PciData :=
  if pyBlank pdfText then samplePciData
  else
    match llmParsed with
    | none => samplePciData
    | some d =>
      match d.requirements with
      | some l => if l.length > 0 then d else samplePciData
      | none => samplePciData

/-- Well-formedness of a CIS tree: a present, non-empty controls list in
which every control has a non-empty identifier and name and a non-empty
safeguard list whose entries have non-empty identifiers. -/
def cisWellFormed (d : CisData) : Prop :=
  ∃ l, d.controls = some l ∧ l ≠ [] ∧
    ∀ c ∈ l, c.id ≠ "" ∧ c.name ≠ "" ∧ c.safeguards ≠ [] ∧
      ∀ sg ∈ c.safeguards, sg.id ≠ ""

instance (d : CisData) : Decidable (cisWellFormed d) := by
  unfold cisWellFormed
  cases h : d.controls with
  | none => exact isFalse (by simp [h])
  | some l =>
    refine decidable_of_iff (l ≠ [] ∧ ∀ c ∈ l, c.id ≠ "" ∧ c.name ≠ "" ∧
      c.safeguards ≠ [] ∧ ∀ sg ∈ c.safeguards, sg.id ≠ "") ?_
    constructor
    · intro hx
      exact ⟨l, rfl, hx.1, hx.2⟩
    · rintro ⟨l2, hl2, h1, h2⟩
      cases hl2
      exact ⟨h1, h2⟩

/-- Well-formedness of a NIST tree: a present, non-empty functions list
with non-empty identifiers at every level. -/
def nistWellFormed (d : NistData) : Prop :=
  ∃ l, d.functions = some l ∧ l ≠ [] ∧
    ∀ f ∈ l, f.id ≠ "" ∧ f.name ≠ "" ∧ f.categories ≠ [] ∧
      ∀ c ∈ f.categories, c.id ≠ "" ∧ ∀ sc ∈ c.subcategories, sc.id ≠ ""

instance (d : NistData) : Decidable (nistWellFormed d) := by
  unfold nistWellFormed
  cases h : d.functions with
  | none => exact isFalse (by simp [h])
  | some l =>
    refine decidable_of_iff (l ≠ [] ∧ ∀ f ∈ l, f.id ≠ "" ∧ f.name ≠ "" ∧
      f.categories ≠ [] ∧ ∀ c ∈ f.categories, c.id ≠ "" ∧
        ∀ sc ∈ c.subcategories, sc.id ≠ "") ?_
    constructor
    · intro hx
      exact ⟨l, rfl, hx.1, hx.2⟩
    · rintro ⟨l2, hl2, h1, h2⟩
      cases hl2
      exact ⟨h1, h2⟩

/-- Well-formedness of a HIPAA tree. -/
def hipaaWellFormed (d : HipaaData) : Prop :=
  ∃ l, d.regulations = some l ∧ l ≠ [] ∧
    ∀ r ∈ l, r.id ≠ "" ∧ r.sections ≠ [] ∧
      ∀ s ∈ r.sections, s.id ≠ "" ∧ ∀ q ∈ s.requirements, q.id ≠ ""

instance (d : HipaaData) : Decidable (hipaaWellFormed d) := by
  unfold hipaaWellFormed
  cases h : d.regulations with
  | none => exact isFalse (by simp [h])
  | some l =>
    refine decidable_of_iff (l ≠ [] ∧ ∀ r ∈ l, r.id ≠ "" ∧ r.sections ≠ [] ∧
      ∀ s ∈ r.sections, s.id ≠ "" ∧ ∀ q ∈ s.requirements, q.id ≠ "") ?_
    constructor
    · intro hx
      exact ⟨l, rfl, hx.1, hx.2⟩
    · rintro ⟨l2, hl2, h1, h2⟩
      cases hl2
      exact ⟨h1, h2⟩

/-- Well-formedness of an FFIEC tree. -/
def ffiecWellFormed (d : FfiecData) : Prop :=
  ∃ l, d.sections = some l ∧ l ≠ [] ∧
    ∀ s ∈ l, s.id ≠ "" ∧ s.examination_procedures ≠ [] ∧
      ∀ p ∈ s.examination_procedures, p.id ≠ "" ∧
        ∀ e ∈ p.examination_steps, e.id ≠ ""

instance (d : FfiecData) : Decidable (ffiecWellFormed d) := by
  unfold ffiecWellFormed
  cases h : d.sections with
  | none => exact isFalse (by simp [h])
  | some l =>
    refine decidable_of_iff (l ≠ [] ∧ ∀ s ∈ l, s.id ≠ "" ∧
      s.examination_procedures ≠ [] ∧ ∀ p ∈ s.examination_procedures, p.id ≠ "" ∧
        ∀ e ∈ p.examination_steps, e.id ≠ "") ?_
    constructor
    · intro hx
      exact ⟨l, rfl, hx.1, hx.2⟩
    · rintro ⟨l2, hl2, h1, h2⟩
      cases hl2
      exact ⟨h1, h2⟩

/-- Well-formedness of a PCI DSS tree. -/
def pciWellFormed (d : PciData) : Prop :=
  ∃ l, d.requirements = some l ∧ l ≠ [] ∧
    ∀ r ∈ l, r.id ≠ "" ∧ r.sub_requirements ≠ [] ∧
      ∀ s ∈ r.sub_requirements, s.id ≠ "" ∧
        ∀ t ∈ s.testing_procedures, t.id ≠ ""

instance (d : PciData) : Decidable (pciWellFormed d) := by
  unfold pciWellFormed
  cases h : d.requirements with
  | none => exact isFalse (by simp [h])
  | some l =>
    refine decidable_of_iff (l ≠ [] ∧ ∀ r ∈ l, r.id ≠ "" ∧
      r.sub_requirements ≠ [] ∧ ∀ s ∈ r.sub_requirements, s.id ≠ "" ∧
        ∀ t ∈ s.testing_procedures, t.id ≠ "") ?_
    constructor
    · intro hx
      exact ⟨l, rfl, hx.1, hx.2⟩
    · rintro ⟨l2, hl2, h1, h2⟩
      cases hl2
      exact ⟨h1, h2⟩

/-- The SET properties of a `CIS_Control` node in
`CISIngestion._create_cis_nodes`; `now` stands for the `datetime()` value
at write time. -/
def cisControlSetProps (c : CisControl) (now : String) : List (String × PVal) :=
  [("name", PVal.s c.name),
   ("description", PVal.s c.description),
   ("source", PVal.s "CIS Controls v8.1"),
   ("ingested_at", PVal.s now)]

/-- The SET properties of a `CIS_Safeguard` node in
`CISIngestion._create_cis_nodes`. -/
def cisSafeguardSetProps (sg : CisSafeguard) (now : String) : List (String × PVal) :=
  [("description", PVal.s sg.description),
   ("asset_type", PVal.s sg.asset_type),
   ("security_function", PVal.s sg.security_function),
   ("implementation_groups", PVal.l sg.implementation_groups),
   ("source", PVal.s "CIS Controls v8.1"),
   ("ingested_at", PVal.s now)]

/-- The node-creation loop of `CISIngestion._create_cis_nodes` over
`cis_data['controls']`: one `MERGE ... SET` per control, then one per
safeguard of that control. -/
def createCisNodes (st : Store) (controls : List CisControl) (now : String) : Store :=
  controls.foldl
    (fun acc c =>
      let acc1 := mergeNode acc "CIS_Control" c.id (cisControlSetProps c now)
      c.safeguards.foldl
        (fun a sg => mergeNode a "CIS_Safeguard" sg.id (cisSafeguardSetProps sg now))
        acc1)
    st

/-- The (label, id) identity key under which `storeNodeStep` merges an
item, or `none` when the item is skipped (unknown node type or missing
SET parameter). -/
def itemKey (it : ProcItem) : Option (String × String) :=
  match nodeSetKeys it.node.type with
  | none => none
  | some keys =>
    match extractSetProps it.node.properties keys with
    | none => none
    | some _ => some (it.node.type, it.node.id)

/-- Sequential `MERGE ... SET` node writes, each given as
(label, id, SET properties). -/
def applyMerges (st : Store) (ms : List (String × String × List (String × PVal))) :
    Store :=
  ms.foldl (fun acc m => mergeNode acc m.1 m.2.1 m.2.2) st

/-- The sequence of node writes `CISIngestion._create_cis_nodes` performs:
for each control its own write followed by one write per safeguard. -/
def cisMergeList (controls : List CisControl) (now : String) :
    List (String × String × List (String × PVal)) :=
  controls.flatMap (fun c =>
    ("CIS_Control", c.id, cisControlSetProps c now) ::
      c.safeguards.map (fun sg => ("CIS_Safeguard", sg.id, cisSafeguardSetProps sg now)))

/-- The node-list entries `process_attack_objects` produces for a list of
technique objects: for each object its technique entry followed by its
synthesized tactic entries. -/
def techProcItems (objs : List StixObject) : List ProcItem :=
  objs.flatMap (fun o =>
    { node := (processTechnique o).node,
      relationships := (processTechnique o).relationships } :: (processTechnique o).tactics)

/-- The `BELONGS_TO_TACTIC` relationship `_process_technique` emits for a
technique declaring the single tactic short name `s`. -/
def belongsRelOf (o : StixObject) (s : String) : GRel :=
  { source := o.id, target := "tactic_" ++ s, type := "BELONGS_TO_TACTIC",
    properties := [("tactic_name", PVal.s s)] }

/-- The store produced by the first two node-phase steps from an empty
store: one Technique node followed by one synthesized Tactic node. -/
def techTacStore (i1 : String) (P Q : List (String × PVal)) (s : String) : Store :=
  { nodes := [{ label := "Technique", id := i1, props := P },
              { label := "Tactic", id := "tactic_" ++ s, props := Q }],
    edges := [] }

/-- The SET properties of a synthesized Tactic node. -/
def tacticProps (o : StixObject) (s : String) : List (String × PVal) :=
  [("name", PVal.s s),
   ("description", PVal.s ("MITRE ATT&CK Tactic: " ++ s)),
   ("created", PVal.s o.created),
   ("modified", PVal.s o.modified)]

/-- A string whose first character marks a context block: every line the
retriever ever places first in a block starts with a header marker `=` or
a leading newline. -/
def headIsBlockMark (s : String) : Prop :=
  s.data.head? = some '=' ∨ s.data.head? = some '\n'

/-- A context-line list that is empty or starts with a block-marked line. -/
def blockShaped (l : List String) : Prop :=
  l = [] ∨ ∃ c t, l = c :: t ∧ headIsBlockMark c

/-- The first of three `attack-pattern` objects all declaring the
kill-chain tactic `execution`, the concrete instance named by the spec's
tactic-deduplication property. -/
def c1Obj1 : StixObject :=
  { type := "attack-pattern", id := "attack-pattern--0001", name := "Tech A",
    external_references := [{ source_name := "mitre-attack", external_id := "T0001" }],
    kill_chain_phases := [{ kill_chain_name := "mitre-attack", phase_name := "execution" }] }

/-- The second of the three techniques declaring tactic `execution`. -/
def c1Obj2 : StixObject :=
  { type := "attack-pattern", id := "attack-pattern--0002", name := "Tech B",
    external_references := [{ source_name := "mitre-attack", external_id := "T0002" }],
    kill_chain_phases := [{ kill_chain_name := "mitre-attack", phase_name := "execution" }] }

/-- The third of the three techniques declaring tactic `execution`. -/
def c1Obj3 : StixObject :=
  { type := "attack-pattern", id := "attack-pattern--0003", name := "Tech C",
    external_references := [{ source_name := "mitre-attack", external_id := "T0003" }],
    kill_chain_phases := [{ kill_chain_name := "mitre-attack", phase_name := "execution" }] }

/-- The three techniques as one raw-object list. -/
def c1Objects : List StixObject := [c1Obj1, c1Obj2, c1Obj3]

/-- A parent technique with identifier `T1055`. -/
def c2Parent : StixObject :=
  { type := "attack-pattern", id := "attack-pattern--1055", name := "Process Injection",
    external_references := [{ source_name := "mitre-attack", external_id := "T1055" }] }

/-- A sub-technique with identifier `T1055.001`. -/
def c2Child : StixObject :=
  { type := "attack-pattern", id := "attack-pattern--1055-001",
    name := "Dynamic-link Library Injection",
    external_references := [{ source_name := "mitre-attack", external_id := "T1055.001" }],
    x_mitre_is_subtechnique := true }

/-- A technique with one kill-chain phase, used to exhibit a concrete
emitted relationship. -/
def c2WitnessObjects : List StixObject :=
  [{ type := "attack-pattern", id := "attack-pattern--w2", name := "Tech W",
     kill_chain_phases := [{ kill_chain_name := "mitre-attack", phase_name := "persistence" }] }]

/-- The relationship `process_attack_objects` emits for
`c2WitnessObjects`. -/
def c2WitnessRel : GRel :=
  { source := "attack-pattern--w2", target := "tactic_persistence",
    type := "BELONGS_TO_TACTIC",
    properties := [("tactic_name", PVal.s "persistence")] }

/-- A standalone relationship whose endpoints are absent from the store. -/
def c4Rel : GRel :=
  { source := "intrusion-set--absent", target := "attack-pattern--absent",
    type := "USES", properties := [] }

/-- A raw STIX object with the `x-mitre-tactic` type tag. -/
def c5TacticObject : StixObject :=
  { type := "x-mitre-tactic", id := "x-mitre-tactic--exec", name := "Execution",
    description := "The adversary is trying to run malicious code." }

/-- A raw malware object, used to instantiate the mapped-type branch. -/
def c5MalwareObject : StixObject :=
  { type := "malware", id := "malware--m1", name := "Emotet" }

/-- A raw STIX object of an unmapped type (`identity`). -/
def c5IdentityObject : StixObject :=
  { type := "identity", id := "identity--mitre", name := "The MITRE Corporation" }

/-- A classifier response that is well-formed JSON with empty lists in
both `relevant_types` and `keywords`. -/
def c7EmptyListsResponse : RawAnalysis :=
  { relevant_types := some (PyVal.vlist []), keywords := some (PyVal.vlist []),
    focus := some (PyVal.vstr "focus"), framework_filter := some (PyVal.vstr "ATT&CK Only") }

/-- A classifier response whose `relevant_types` and `keywords` fields are
strings rather than lists. -/
def c7StringFieldsResponse : RawAnalysis :=
  { relevant_types := some (PyVal.vstr "techniques"),
    keywords := some (PyVal.vstr "T1055"),
    focus := none, framework_filter := none }

/-- A raw technique object with a fully-populated external reference
(identifier, source name and URL). -/
def c9Object : StixObject :=
  { type := "attack-pattern", id := "attack-pattern--9", name := "Process Injection",
    description := "Adversaries may inject code into processes.",
    external_references :=
      [{ source_name := "mitre-attack", external_id := "T1055",
         url := "https://attack.mitre.org/techniques/T1055" }] }

/-- Claim C10: every STIX object processed into a node stores the first
500 characters of the source description as its `description` property
and the whole source description as `full_description`, across all eight
object processors. -/
theorem c10_description_truncation_and_full_text (obj : StixObject) :
    (lookupProp (processTechnique obj).node.properties "description" =
        some (PVal.s (strTake obj.description 500)) ∧
      lookupProp (processTechnique obj).node.properties "full_description" =
        some (PVal.s obj.description)) ∧
    (lookupProp (processMalware obj).node.properties "description" =
        some (PVal.s (strTake obj.description 500)) ∧
      lookupProp (processMalware obj).node.properties "full_description" =
        some (PVal.s obj.description)) ∧
    (lookupProp (processThreatGroup obj).node.properties "description" =
        some (PVal.s (strTake obj.description 500)) ∧
      lookupProp (processThreatGroup obj).node.properties "full_description" =
        some (PVal.s obj.description)) ∧
    (lookupProp (processTool obj).node.properties "description" =
        some (PVal.s (strTake obj.description 500)) ∧
      lookupProp (processTool obj).node.properties "full_description" =
        some (PVal.s obj.description)) ∧
    (lookupProp (processMitigation obj).node.properties "description" =
        some (PVal.s (strTake obj.description 500)) ∧
      lookupProp (processMitigation obj).node.properties "full_description" =
        some (PVal.s obj.description)) ∧
    (lookupProp (processDataSource obj).node.properties "description" =
        some (PVal.s (strTake obj.description 500)) ∧
      lookupProp (processDataSource obj).node.properties "full_description" =
        some (PVal.s obj.description)) ∧
    (lookupProp (processDataComponent obj).node.properties "description" =
        some (PVal.s (strTake obj.description 500)) ∧
      lookupProp (processDataComponent obj).node.properties "full_description" =
        some (PVal.s obj.description)) ∧
    (lookupProp (processCampaign obj).node.properties "description" =
        some (PVal.s (strTake obj.description 500)) ∧
      lookupProp (processCampaign obj).node.properties "full_description" =
        some (PVal.s obj.description)) :=
  ⟨⟨rfl, rfl⟩, ⟨rfl, rfl⟩, ⟨rfl, rfl⟩, ⟨rfl, rfl⟩, ⟨rfl, rfl⟩, ⟨rfl, rfl⟩,
   ⟨rfl, rfl⟩, ⟨rfl, rfl⟩⟩

/-- Claim C9 counterexample: for a technique object carrying an external
reference with identifier, source name and URL all present, the spec-side
citation extractor produces the delimited string, yet the node the code
emits carries no `citations` property at all, so the claimed
citation-string attachment does not happen. -/
theorem c9_counterexample_no_citations_property :
    specExtractCitations c9Object.external_references =
      ["T1055 | mitre-attack | https://attack.mitre.org/techniques/T1055"] ∧
    lookupProp (processTechnique c9Object).node.properties "citations" = none :=
  ⟨rfl, rfl⟩

/-- Claim C9 (amended): the ATT&CK object processors attach no
`citations` list to any emitted node; external references are read only
to extract the primary identifier. -/
theorem c9_nodes_carry_no_citations_list (obj : StixObject) :
    lookupProp (processTechnique obj).node.properties "citations" = none ∧
    lookupProp (processMalware obj).node.properties "citations" = none ∧
    lookupProp (processThreatGroup obj).node.properties "citations" = none ∧
    lookupProp (processTool obj).node.properties "citations" = none ∧
    lookupProp (processMitigation obj).node.properties "citations" = none ∧
    lookupProp (processDataSource obj).node.properties "citations" = none ∧
    lookupProp (processDataComponent obj).node.properties "citations" = none ∧
    lookupProp (processCampaign obj).node.properties "citations" = none :=
  ⟨rfl, rfl, rfl, rfl, rfl, rfl, rfl, rfl⟩

/-- Claim C4 counterexample: a standalone relationship whose endpoints are
absent from the store is a no-op on the store, yet the returned
relationship count is 1, not 0, so the claim that such a relationship is
excluded from the applied-relationship count is false. -/
theorem c4_counterexample_dangling_rel_counted :
    storeInNeo4j emptyStore [] [c4Rel] = (emptyStore, 0, 1) ∧ (1 : Nat) ≠ 0 :=
  ⟨rfl, by decide⟩

/-- Claim C4 (amended): applying a relationship with a valid Cypher type
whose source or target id matches no stored node changes nothing in the
store and raises no exception, but it is still counted by the returned
relationship counter (the counts reflect attempted, not successful,
applications). -/
theorem c4_dangling_rel_noop_but_counted (st : Store) (r : GRel)
    (hty : validRelType r.type = true)
    (h : (∀ n ∈ st.nodes, n.id ≠ r.source) ∨ (∀ n ∈ st.nodes, n.id ≠ r.target)) :
    storeRelStep st r = (st, 1) := by
  unfold storeRelStep
  rw [if_pos hty]
  dsimp only
  rcases h with h | h
  · have hs : st.nodes.filter (fun n => n.id == r.source) = [] := by
      rw [List.filter_eq_nil_iff]
      intro n hn
      simpa using h n hn
    rw [hs]
    rfl
  · have ht : st.nodes.filter (fun n => n.id == r.target) = [] := by
      rw [List.filter_eq_nil_iff]
      intro n hn
      simpa using h n hn
    rw [ht]
    have hfold : ∀ (l : List StoreNode) (acc : Store),
        l.foldl (fun acc2 s => ([] : List StoreNode).foldl
          (fun acc3 t => mergeEdge acc3 s r.type t r.properties) acc2) acc = acc := by
      intro l
      induction l with
      | nil => intro acc; rfl
      | cons a t ih => intro acc; exact ih acc
    rw [hfold]

/-- Claim C4 witness: the amended statement instantiated on the empty
store and a concrete `USES` relationship. -/
theorem c4_dangling_rel_noop_but_counted_witness :
    validRelType c4Rel.type = true ∧ storeRelStep emptyStore c4Rel = (emptyStore, 1) :=
  ⟨by decide, c4_dangling_rel_noop_but_counted emptyStore c4Rel (by decide)
    (Or.inl (by simp [emptyStore]))⟩

/-- Claim C5 counterexample: the spec's table maps `x-mitre-tactic` to the
Tactic label, but the dispatch has no such branch: an `x-mitre-tactic`
object is skipped (no node emitted) and counted under `other`. -/
theorem c5_counterexample_x_mitre_tactic_skipped :
    specStixTypeLabel "x-mitre-tactic" = some "Tactic" ∧
    (processAttackObjects [c5TacticObject]).nodes = [] ∧
    (processAttackObjects [c5TacticObject]).stats.other = 1 :=
  ⟨rfl, rfl, rfl⟩

/-- Claim C5 (amended): the dispatch realizes the spec's type-to-label
table on every type tag except `x-mitre-tactic`, which has no branch; an
object of a mapped type yields a node with the mapped label (and no
`other` count), and an object of any unmapped type other than
`relationship` yields no node and one `other` count. -/
theorem c5_type_label_mapping_amended :
    (∀ t, attackTypeLabel t =
      if t = "x-mitre-tactic" then none else specStixTypeLabel t) ∧
    (∀ o l, attackTypeLabel o.type = some l →
      ((processAttackObjects [o]).nodes.map (fun it => it.node.type)).head? = some l ∧
      (processAttackObjects [o]).stats.other = 0) ∧
    (∀ o, attackTypeLabel o.type = none → o.type ≠ "relationship" →
      (processAttackObjects [o]).nodes = [] ∧
      (processAttackObjects [o]).stats.other = 1) := by
  refine ⟨?_, ?_, ?_⟩
  · intro t
    unfold attackTypeLabel specStixTypeLabel
    split_ifs <;> simp_all
  · intro o l h
    unfold attackTypeLabel at h
    split_ifs at h with h1 h2 h3 h4 h5 h6 h7 h8 <;> cases h <;>
      simp_all [processAttackObjects,
        processTechnique, processMalware, processThreatGroup, processTool,
        processMitigation, processDataSource, processDataComponent, processCampaign]
  · intro o h hrel
    unfold attackTypeLabel at h
    split_ifs at h with h1 h2 h3 h4 h5 h6 h7 h8
    simp_all [processAttackObjects]

/-- Claim C5 witness: the amended statement instantiated on a concrete
malware object (mapped branch) and a concrete identity object (unmapped
branch). -/
theorem c5_type_label_mapping_amended_witness :
    (((processAttackObjects [c5MalwareObject]).nodes.map
        (fun it => it.node.type)).head? = some "Malware" ∧
      (processAttackObjects [c5MalwareObject]).stats.other = 0) ∧
    ((processAttackObjects [c5IdentityObject]).nodes = [] ∧
      (processAttackObjects [c5IdentityObject]).stats.other = 1) :=
  ⟨c5_type_label_mapping_amended.2.1 c5MalwareObject "Malware" rfl,
   c5_type_label_mapping_amended.2.2 c5IdentityObject rfl (by decide)⟩

/-- Claim C2 counterexample: ingesting the techniques `T1055` and
`T1055.001` in either order emits no `HAS_SUBTECHNIQUE` relationship at
all (the claim requires exactly one from parent to child), neither in the
normalized relationship list nor in the stored graph. -/
theorem c2_counterexample_no_has_subtechnique :
    ((processAttackObjects [c2Parent, c2Child]).relationships.filter
      (fun r => r.type == "HAS_SUBTECHNIQUE")) = [] ∧
    ((processAttackObjects [c2Child, c2Parent]).relationships.filter
      (fun r => r.type == "HAS_SUBTECHNIQUE")) = [] ∧
    ((ingestAttackData [c2Parent, c2Child]).1.edges.filter
      (fun e => e.type == "HAS_SUBTECHNIQUE")) = [] ∧
    ((ingestAttackData [c2Child, c2Parent]).1.edges.filter
      (fun e => e.type == "HAS_SUBTECHNIQUE")) = [] :=
  ⟨rfl, rfl, rfl, rfl⟩

/-- Claim C2 (amended): normalization synthesizes no subtechnique edges
from identifier structure; on inputs without standalone relationship
objects every emitted relationship is a synthesized `BELONGS_TO_TACTIC`
or `BELONGS_TO_DATA_SOURCE` edge, never `HAS_SUBTECHNIQUE`. -/
theorem c2_no_subtechnique_edges_synthesized (objs : List StixObject)
    (h : ∀ o ∈ objs, o.type ≠ "relationship") :
    ∀ r ∈ (processAttackObjects objs).relationships,
      (r.type = "BELONGS_TO_TACTIC" ∨ r.type = "BELONGS_TO_DATA_SOURCE") ∧
      r.type ≠ "HAS_SUBTECHNIQUE" := by
  induction objs with
  | nil => intro r hr; simp [processAttackObjects] at hr
  | cons o rest ih =>
    intro r hr
    have hrest := ih (fun o2 h2 => h o2 (List.mem_cons_of_mem _ h2))
    have ho := h o (List.mem_cons_self _ _)
    unfold processAttackObjects at hr
    by_cases h1 : o.type = "attack-pattern"
    · rw [if_pos h1] at hr
      simp only [List.mem_append] at hr
      rcases hr with hr | hr
      · have hty : r.type = "BELONGS_TO_TACTIC" := by
          simp [processTechnique] at hr
          obtain ⟨p, hp, hre⟩ := hr
          rw [← hre]
        rw [hty]
        exact ⟨Or.inl rfl, by decide⟩
      · exact hrest r hr
    · rw [if_neg h1] at hr
      by_cases h2 : o.type = "malware"
      · rw [if_pos h2] at hr
        exact hrest r (by simpa [processMalware] using hr)
      · rw [if_neg h2] at hr
        by_cases h3 : o.type = "intrusion-set"
        · rw [if_pos h3] at hr
          exact hrest r (by simpa [processThreatGroup] using hr)
        · rw [if_neg h3] at hr
          by_cases h4 : o.type = "tool"
          · rw [if_pos h4] at hr
            exact hrest r (by simpa [processTool] using hr)
          · rw [if_neg h4] at hr
            by_cases h5 : o.type = "course-of-action"
            · rw [if_pos h5] at hr
              exact hrest r (by simpa [processMitigation] using hr)
            · rw [if_neg h5] at hr
              by_cases h6 : o.type = "x-mitre-data-source"
              · rw [if_pos h6] at hr
                exact hrest r (by simpa [processDataSource] using hr)
              · rw [if_neg h6] at hr
                by_cases h7 : o.type = "x-mitre-data-component"
                · rw [if_pos h7] at hr
                  simp only [List.mem_append] at hr
                  rcases hr with hr | hr
                  · have hty : r.type = "BELONGS_TO_DATA_SOURCE" := by
                      simp [processDataComponent] at hr
                      rw [hr.2]
                    rw [hty]
                    exact ⟨Or.inr rfl, by decide⟩
                  · exact hrest r hr
                · rw [if_neg h7] at hr
                  by_cases h8 : o.type = "campaign"
                  · rw [if_pos h8] at hr
                    exact hrest r (by simpa [processCampaign] using hr)
                  · rw [if_neg h8] at hr
                    rw [if_neg ho] at hr
                    exact hrest r hr

/-- Claim C2 witness: the amended statement instantiated on a concrete
one-technique input and its emitted relationship. -/
theorem c2_no_subtechnique_edges_synthesized_witness :
    c2WitnessRel ∈ (processAttackObjects c2WitnessObjects).relationships ∧
    (c2WitnessRel.type = "BELONGS_TO_TACTIC" ∨
      c2WitnessRel.type = "BELONGS_TO_DATA_SOURCE") ∧
    c2WitnessRel.type ≠ "HAS_SUBTECHNIQUE" :=
  ⟨by decide,
   c2_no_subtechnique_edges_synthesized c2WitnessObjects (by decide)
     c2WitnessRel (by decide)⟩

/-- Claim C7 counterexample: a classifier response that parses as JSON
with `relevant_types` and `keywords` both present but equal to empty
lists passes validation unchanged, so the retriever receives an empty
category list and an empty keyword list, contrary to the claim. -/
theorem c7_counterexample_empty_lists_pass :
    (analyzeUserQuery (some c7EmptyListsResponse) "What is T1055?" "ATT&CK Only").relevant_types
      = [] ∧
    (analyzeUserQuery (some c7EmptyListsResponse) "What is T1055?" "ATT&CK Only").keywords
      = [] :=
  ⟨rfl, rfl⟩

/-- Claim C7 (amended): when the classifier call raises, the analysis is
the hard-coded per-scope fallback with a non-empty category list and
keywords equal to the question; when the call succeeds but a field is not
a list, that field alone is replaced (categories by the per-scope
non-empty default table, keywords by the question).  Well-formed
responses, including ones carrying empty lists, pass through unchanged. -/
theorem c7_classifier_defaults_amended (q scope : String) (parsed : Option RawAnalysis) :
    (parsed = none →
      analyzeUserQuery parsed q scope = exceptionFallbackAnalysis q scope ∧
      (analyzeUserQuery parsed q scope).relevant_types ≠ [] ∧
      (analyzeUserQuery parsed q scope).keywords = [q]) ∧
    (∀ r, parsed = some r → isListVal r.relevant_types = false →
      (analyzeUserQuery parsed q scope).relevant_types = validationDefaultTypes scope ∧
      validationDefaultTypes scope ≠ []) ∧
    (∀ r, parsed = some r → isListVal r.keywords = false →
      (analyzeUserQuery parsed q scope).keywords = [q]) := by
  refine ⟨?_, ?_, ?_⟩
  · rintro rfl
    refine ⟨rfl, ?_, ?_⟩
    · unfold analyzeUserQuery exceptionFallbackAnalysis
      split_ifs <;> simp
    · unfold analyzeUserQuery exceptionFallbackAnalysis
      split_ifs <;> rfl
  · rintro r rfl hl
    constructor
    · unfold analyzeUserQuery
      cases hv : r.relevant_types with
      | none => simp [hv]
      | some v =>
        cases v with
        | vstr s2 => simp [hv]
        | vlist xs => simp [isListVal, hv] at hl
    · unfold validationDefaultTypes
      split_ifs <;> simp
  · rintro r rfl hl
    unfold analyzeUserQuery
    cases hv : r.keywords with
    | none => simp [hv]
    | some v =>
      cases v with
      | vstr s2 => simp [hv]
      | vlist xs => simp [isListVal, hv] at hl

/-- Claim C7 witness: the amended statement instantiated at an erroring
call under the NIST scope and at a string-valued response under the
ATT&CK scope. -/
theorem c7_classifier_defaults_amended_witness :
    ((analyzeUserQuery none "q" "NIST CSF").relevant_types ≠ [] ∧
      (analyzeUserQuery none "q" "NIST CSF").keywords = ["q"]) ∧
    ((analyzeUserQuery (some c7StringFieldsResponse) "q" "ATT&CK Only").relevant_types =
        validationDefaultTypes "ATT&CK Only" ∧
      validationDefaultTypes "ATT&CK Only" ≠ []) ∧
    (analyzeUserQuery (some c7StringFieldsResponse) "q" "ATT&CK Only").keywords = ["q"] :=
  ⟨⟨((c7_classifier_defaults_amended "q" "NIST CSF" none).1 rfl).2.1,
    ((c7_classifier_defaults_amended "q" "NIST CSF" none).1 rfl).2.2⟩,
   (c7_classifier_defaults_amended "q" "ATT&CK Only" (some c7StringFieldsResponse)).2.1
     c7StringFieldsResponse rfl rfl,
   (c7_classifier_defaults_amended "q" "ATT&CK Only" (some c7StringFieldsResponse)).2.2
     c7StringFieldsResponse rfl rfl⟩

/-- Claim C8: for each of the five PDF-framework ingesters, blank
extracted text, a failed or unparseable LLM response, and a parsed
response with a missing or empty top-level collection all yield the
framework's static sample tree instead of raising, and every sample tree
is non-empty and well-formed. -/
theorem c8_extraction_falls_back_to_samples :
    (∀ pdf parsed, (pyBlank pdf = true ∨ parsed = none ∨
        (∃ d, parsed = some d ∧ (d.controls = none ∨ d.controls = some []))) →
      extractCisStructureWithLlm pdf parsed = sampleCisData) ∧
    cisWellFormed sampleCisData ∧
    (∀ pdf parsed, (pyBlank pdf = true ∨ parsed = none ∨
        (∃ d, parsed = some d ∧ (d.functions = none ∨ d.functions = some []))) →
      extractNistStructureWithLlm pdf parsed = sampleNistData) ∧
    nistWellFormed sampleNistData ∧
    (∀ pdf parsed, (pyBlank pdf = true ∨ parsed = none ∨
        (∃ d, parsed = some d ∧ (d.regulations = none ∨ d.regulations = some []))) →
      extractHipaaStructureWithLlm pdf parsed = sampleHipaaData) ∧
    hipaaWellFormed sampleHipaaData ∧
    (∀ pdf parsed, (pyBlank pdf = true ∨ parsed = none ∨
        (∃ d, parsed = some d ∧ (d.sections = none ∨ d.sections = some []))) →
      extractFfiecStructureWithLlm pdf parsed = sampleFfiecData) ∧
    ffiecWellFormed sampleFfiecData ∧
    (∀ pdf parsed, (pyBlank pdf = true ∨ parsed = none ∨
        (∃ d, parsed = some d ∧ (d.requirements = none ∨ d.requirements = some []))) →
      extractPciStructureWithLlm pdf parsed = samplePciData) ∧
    pciWellFormed samplePciData := by
  refine ⟨?_, by decide, ?_, by decide, ?_, by decide, ?_, by decide, ?_, by decide⟩
  · intro pdf parsed h
    unfold extractCisStructureWithLlm
    rcases h with h | h | ⟨d, rfl, hc⟩
    · rw [if_pos h]
    · subst h
      split_ifs <;> rfl
    · rcases hc with hc | hc <;> by_cases hb : pyBlank pdf <;> simp [hb, hc]
  · intro pdf parsed h
    unfold extractNistStructureWithLlm
    rcases h with h | h | ⟨d, rfl, hc⟩
    · rw [if_pos h]
    · subst h
      split_ifs <;> rfl
    · rcases hc with hc | hc <;> by_cases hb : pyBlank pdf <;> simp [hb, hc]
  · intro pdf parsed h
    unfold extractHipaaStructureWithLlm
    rcases h with h | h | ⟨d, rfl, hc⟩
    · rw [if_pos h]
    · subst h
      split_ifs <;> rfl
    · rcases hc with hc | hc <;> by_cases hb : pyBlank pdf <;> simp [hb, hc]
  · intro pdf parsed h
    unfold extractFfiecStructureWithLlm
    rcases h with h | h | ⟨d, rfl, hc⟩
    · rw [if_pos h]
    · subst h
      split_ifs <;> rfl
    · rcases hc with hc | hc <;> by_cases hb : pyBlank pdf <;> simp [hb, hc]
  · intro pdf parsed h
    unfold extractPciStructureWithLlm
    rcases h with h | h | ⟨d, rfl, hc⟩
    · rw [if_pos h]
    · subst h
      split_ifs <;> rfl
    · rcases hc with hc | hc <;> by_cases hb : pyBlank pdf <;> simp [hb, hc]

/-- Claim C8 witness: the fallback statement instantiated on the empty
input text with an erroring LLM call, for all five frameworks. -/
theorem c8_extraction_falls_back_to_samples_witness :
    extractCisStructureWithLlm "" none = sampleCisData ∧
    extractNistStructureWithLlm "" none = sampleNistData ∧
    extractHipaaStructureWithLlm "" none = sampleHipaaData ∧
    extractFfiecStructureWithLlm "" none = sampleFfiecData ∧
    extractPciStructureWithLlm "" none = samplePciData :=
  ⟨c8_extraction_falls_back_to_samples.1 "" none (Or.inl (by decide)),
   c8_extraction_falls_back_to_samples.2.2.1 "" none (Or.inl (by decide)),
   c8_extraction_falls_back_to_samples.2.2.2.2.1 "" none (Or.inl (by decide)),
   c8_extraction_falls_back_to_samples.2.2.2.2.2.2.1 "" none (Or.inl (by decide)),
   c8_extraction_falls_back_to_samples.2.2.2.2.2.2.2.2.1 "" none (Or.inl (by decide))⟩

/-- Helper: a context list built by appending two block-shaped lists is
block-shaped. -/
theorem blockShaped_append (l1 l2 : List String)
    (h1 : blockShaped l1) (h2 : blockShaped l2) : blockShaped (l1 ++ l2) := by
  rcases h1 with rfl | ⟨c, t, rfl, hc⟩
  · simpa using h2
  · exact Or.inr ⟨c, t ++ l2, by simp, hc⟩

/-- Helper: a successful category block is empty or starts with its
header line. -/
theorem categoryBlock_ok_shape (st : Store) (label : String)
    (m : StoreNode → Bool) (lim : Nat) (hdr : String)
    (render : StoreNode → Except String (List String)) (l : List String)
    (h : categoryBlock st label m lim hdr render = Except.ok l) :
    l = [] ∨ ∃ t, l = hdr :: t := by
  unfold categoryBlock at h
  by_cases he : ((st.nodes.filter (fun n => n.label == label && m n)).take lim).isEmpty
  · rw [if_pos he] at h
    cases h
    exact Or.inl rfl
  · rw [if_neg he] at h
    cases hm : ((st.nodes.filter (fun n => n.label == label && m n)).take lim).mapM render with
    | error e => rw [hm] at h; cases h
    | ok rows =>
      rw [hm] at h
      cases h
      exact Or.inr ⟨rows.flatten, rfl⟩

/-- Helper: a guarded category block produces a block-shaped list when its
header starts with a block mark. -/
theorem optBlock_shaped (cond : Bool) (st : Store) (kws : List String)
    (blk : Store → List String → Except String (List String)) (hdr : String)
    (l : List String)
    (hblk : ∀ l2, blk st kws = Except.ok l2 → l2 = [] ∨ ∃ t, l2 = hdr :: t)
    (hhdr : headIsBlockMark hdr)
    (h : (if cond then blk st kws else Except.ok []) = Except.ok l) :
    blockShaped l := by
  cases cond with
  | false => cases h; exact Or.inl rfl
  | true =>
    rcases hblk l h with rfl | ⟨t, rfl⟩
    · exact Or.inl rfl
    · exact Or.inr ⟨hdr, t, rfl, hhdr⟩

/-- Helper: every successful per-category context is block-shaped: empty
or starting with one of the category headers. -/
theorem categoryContext_ok_shape (st : Store) (kws types : List String)
    (l : List String) (h : categoryContext st kws types = Except.ok l) :
    blockShaped l := by
  unfold categoryContext at h
  cases h1 : (if types.contains "techniques" then techniquesBlock st kws else Except.ok []) with
  | error e => rw [h1] at h; cases h
  | ok l1 =>
  rw [h1] at h
  cases h2 : (if types.contains "malware" then malwareBlock st kws else Except.ok []) with
  | error e => rw [h2] at h; cases h
  | ok l2 =>
  rw [h2] at h
  cases h3 : (if types.contains "threat_groups" then threatGroupsBlock st kws else Except.ok []) with
  | error e => rw [h3] at h; cases h
  | ok l3 =>
  rw [h3] at h
  cases h4 : (if types.contains "tools" then toolsBlock st kws else Except.ok []) with
  | error e => rw [h4] at h; cases h
  | ok l4 =>
  rw [h4] at h
  cases h5 : (if types.contains "mitigations" then mitigationsBlock st kws else Except.ok []) with
  | error e => rw [h5] at h; cases h
  | ok l5 =>
  rw [h5] at h
  cases h6 : (if types.contains "data_sources" then dataSourcesBlock st kws else Except.ok []) with
  | error e => rw [h6] at h; cases h
  | ok l6 =>
  rw [h6] at h
  cases h7 : (if types.contains "campaigns" then campaignsBlock st kws else Except.ok []) with
  | error e => rw [h7] at h; cases h
  | ok l7 =>
  rw [h7] at h
  cases h
  have s1 : blockShaped l1 :=
    optBlock_shaped _ st kws techniquesBlock "=== ATT&CK TECHNIQUES ===" l1
      (fun lx hok => categoryBlock_ok_shape st "Technique" _ 5 _ renderTechniqueRow lx hok)
      (Or.inl rfl) h1
  have s2 : blockShaped l2 :=
    optBlock_shaped _ st kws malwareBlock "\n=== MALWARE ===" l2
      (fun lx hok => categoryBlock_ok_shape st "Malware" _ 5 _ renderMalwareRow lx hok)
      (Or.inr rfl) h2
  have s3 : blockShaped l3 :=
    optBlock_shaped _ st kws threatGroupsBlock "\n=== THREAT GROUPS ===" l3
      (fun lx hok => categoryBlock_ok_shape st "ThreatGroup" _ 5 _ renderGroupRow lx hok)
      (Or.inr rfl) h3
  have s4 : blockShaped l4 :=
    optBlock_shaped _ st kws toolsBlock "\n=== TOOLS ===" l4
      (fun lx hok => categoryBlock_ok_shape st "Tool" _ 5 _ renderToolRow lx hok)
      (Or.inr rfl) h4
  have s5 : blockShaped l5 :=
    optBlock_shaped _ st kws mitigationsBlock "\n=== MITIGATIONS ===" l5
      (fun lx hok => categoryBlock_ok_shape st "Mitigation" _ 5 _ renderMitigationRow lx hok)
      (Or.inr rfl) h5
  have s6 : blockShaped l6 :=
    optBlock_shaped _ st kws dataSourcesBlock "\n=== DATA SOURCES ===" l6
      (fun lx hok => categoryBlock_ok_shape st "DataSource" _ 5 _ renderDataSourceRow lx hok)
      (Or.inr rfl) h6
  have s7 : blockShaped l7 :=
    optBlock_shaped _ st kws campaignsBlock "\n=== CAMPAIGNS ===" l7
      (fun lx hok => categoryBlock_ok_shape st "Campaign" _ 5 _ renderCampaignRow lx hok)
      (Or.inr rfl) h7
  exact blockShaped_append _ _ (blockShaped_append _ _ (blockShaped_append _ _
    (blockShaped_append _ _ (blockShaped_append _ _ (blockShaped_append _ _ s1 s2) s3) s4) s5) s6) s7

/-- Helper: joining a line list whose first line starts with a character
yields a string starting with that character. -/
theorem joinSep_head_char (sep a : String) (t : List String) (c : Char)
    (h : a.data.head? = some c) :
    (joinSep sep (a :: t)).data.head? = some c := by
  cases t with
  | nil => simpa [joinSep] using h
  | cons b t2 =>
    show ((a ++ sep ++ joinSep sep (b :: t2)).data).head? = some c
    rw [String.data_append, String.data_append]
    cases ha : a.data with
    | nil => rw [ha] at h; cases h
    | cons ch chs =>
      rw [ha] at h
      simpa using h

/-- Claim C6 counterexample: with an empty store (every category block
empty) the broader search also yields nothing, yet the retriever returns
just the broader-search header line, not the fixed no-information
message the claim requires. -/
theorem c6_counterexample_bare_header_returned :
    getSelectiveContext emptyStore ["powershell"] [] = Except.ok broaderHeader ∧
    broadResults emptyStore ["powershell"] = [] ∧
    broaderHeader ≠ noInfoMsg ∧ broaderHeader ≠ "" :=
  ⟨rfl, rfl, by decide, by decide⟩

/-- Claim C6 (amended): whenever the retriever returns (instead of
re-raising a query error, which happens exactly when the keyword list is
empty or a matched row is missing a required field), the returned context
is a non-empty string; if every per-category block is empty it falls back
to one unscoped query from the first two keyword conditions against name
and description under the broader-search header, and if that too yields
nothing the result is the bare header line — the fixed no-information
message is dead code and never returned. -/
theorem c6_retriever_nonempty_amended (st : Store) (kws types : List String) :
    (∀ s, getSelectiveContext st kws types = Except.ok s →
      s ≠ "" ∧ s ≠ noInfoMsg) ∧
    (kws ≠ [] → categoryContext st kws types = Except.ok [] →
      broadResults st kws = [] →
      getSelectiveContext st kws types = Except.ok broaderHeader) := by
  constructor
  · intro s hs
    unfold getSelectiveContext at hs
    by_cases hk : kws.isEmpty
    · rw [if_pos hk] at hs; cases hs
    · rw [if_neg hk] at hs
      cases hc : categoryContext st kws types with
      | error e => rw [hc] at hs; cases hs
      | ok ctx =>
        rw [hc] at hs
        simp only [Except.bind] at hs
        have hshape := categoryContext_ok_shape st kws types ctx hc
        have hmain : ∃ c2, s.data.head? = some c2 ∧ (c2 = '=' ∨ c2 = '\n') := by
          by_cases hce : ctx.isEmpty
          · rw [if_pos hce] at hs
            cases hm : (broadResults st kws).mapM renderBroadRow with
            | error e => rw [hm] at hs; cases hs
            | ok rows =>
              rw [hm] at hs
              cases hs
              refine ⟨'=', ?_, Or.inl rfl⟩
              exact joinSep_head_char "\n" broaderHeader rows.flatten '=' rfl
          · rw [if_neg hce] at hs
            rcases hshape with rfl | ⟨c, t, rfl, hc2⟩
            · simp at hce
            · cases hs
              rcases hc2 with hc2 | hc2
              · refine ⟨'=', ?_, Or.inl rfl⟩
                simpa using joinSep_head_char "\n" c t '=' hc2
              · refine ⟨'\n', ?_, Or.inr rfl⟩
                simpa using joinSep_head_char "\n" c t '\n' hc2
        obtain ⟨c2, hhead, hcs⟩ := hmain
        constructor
        · intro he
          rw [he] at hhead
          cases hhead
        · intro he
          rw [he] at hhead
          rcases hcs with rfl | rfl <;> simp [noInfoMsg] at hhead
  · intro hk hctx hbr
    unfold getSelectiveContext
    rw [if_neg (by simpa using hk)]
    rw [hctx, hbr]
    rfl

/-- Claim C6 witness: the amended statement instantiated on the empty
store with one keyword and no selected categories. -/
theorem c6_retriever_nonempty_amended_witness :
    (broaderHeader ≠ "" ∧ broaderHeader ≠ noInfoMsg) ∧
    getSelectiveContext emptyStore ["powershell"] [] = Except.ok broaderHeader :=
  ⟨(c6_retriever_nonempty_amended emptyStore ["powershell"] []).1 broaderHeader rfl,
   (c6_retriever_nonempty_amended emptyStore ["powershell"] []).2 (by decide) rfl rfl⟩

/-- Helper: merging a node leaves the store's identity-key list unchanged
when the (label, id) key is already present, and appends it otherwise. -/
theorem storeKeys_mergeNode (st : Store) (label id2 : String) (p : List (String × PVal)) :
    storeKeys (mergeNode st label id2 p) =
      if (label, id2) ∈ storeKeys st then storeKeys st
      else storeKeys st ++ [(label, id2)] := by
  unfold mergeNode storeKeys
  by_cases h : st.nodes.any (fun n => n.label == label && n.id == id2)
  · rw [if_pos h]
    have hmem : (label, id2) ∈ st.nodes.map (fun n => (n.label, n.id)) := by
      rcases List.any_eq_true.mp h with ⟨n, hn, hp⟩
      simp only [Bool.and_eq_true, beq_iff_eq] at hp
      exact List.mem_map.mpr ⟨n, hn, by rw [hp.1, hp.2]⟩
    rw [if_pos hmem]
    dsimp only
    rw [List.map_map]
    apply List.map_congr_left
    intro n hn
    by_cases hc : n.label = label ∧ n.id = id2 <;> simp [hc]
  · rw [if_neg h]
    have hmem : (label, id2) ∉ st.nodes.map (fun n => (n.label, n.id)) := by
      intro hmem
      rcases List.mem_map.mp hmem with ⟨n, hn, he⟩
      apply h
      apply List.any_eq_true.mpr
      refine ⟨n, hn, ?_⟩
      simp only [Bool.and_eq_true, beq_iff_eq]
      exact ⟨congrArg Prod.fst he, congrArg Prod.snd he⟩
    rw [if_neg hmem]
    simp

/-- Helper: merging a node preserves existing identity keys. -/
theorem mem_storeKeys_mergeNode (st : Store) (label id2 : String)
    (p : List (String × PVal)) (k : String × String) (h : k ∈ storeKeys st) :
    k ∈ storeKeys (mergeNode st label id2 p) := by
  rw [storeKeys_mergeNode]
  split_ifs with hm
  · exact h
  · exact List.mem_append_left _ h

/-- Helper: the identity-key list after one node-storing step. -/
theorem storeKeys_storeNodeStep (st : Store) (it : ProcItem) :
    storeKeys (storeNodeStep st it).1 =
      match itemKey it with
      | none => storeKeys st
      | some k => if k ∈ storeKeys st then storeKeys st else storeKeys st ++ [k] := by
  cases hk : nodeSetKeys it.node.type with
  | none => simp [storeNodeStep, itemKey, hk]
  | some keys =>
    cases he : extractSetProps it.node.properties keys with
    | none => simp [storeNodeStep, itemKey, hk, he]
    | some setProps =>
      simp only [storeNodeStep, itemKey, hk, he]
      exact storeKeys_mergeNode st it.node.type it.node.id setProps

/-- Helper: one node-storing step preserves existing identity keys. -/
theorem mem_storeKeys_storeNodeStep (st : Store) (it : ProcItem)
    (k : String × String) (h : k ∈ storeKeys st) :
    k ∈ storeKeys (storeNodeStep st it).1 := by
  rw [storeKeys_storeNodeStep]
  cases itemKey it with
  | none => exact h
  | some k2 =>
    dsimp only
    split_ifs with hm
    · exact h
    · exact List.mem_append_left _ h

/-- Helper: the node-storing loop preserves existing identity keys. -/
theorem mem_storeKeys_storeNodesPhase (items : List ProcItem) (st : Store)
    (k : String × String) (h : k ∈ storeKeys st) :
    k ∈ storeKeys (storeNodesPhase st items).1 := by
  induction items generalizing st with
  | nil => exact h
  | cons it rest ih =>
    exact ih (storeNodeStep st it).1 (mem_storeKeys_storeNodeStep st it k h)

/-- Helper: after the node-storing loop, every stored item's identity key
is present in the store. -/
theorem itemKey_mem_after_phase (items : List ProcItem) (st : Store)
    (it : ProcItem) (hit : it ∈ items) (k : String × String)
    (hk : itemKey it = some k) :
    k ∈ storeKeys (storeNodesPhase st items).1 := by
  induction items generalizing st with
  | nil => cases hit
  | cons a rest ih =>
    rcases List.mem_cons.mp hit with rfl | hmem
    · have h1 : k ∈ storeKeys (storeNodeStep st it).1 := by
        rw [storeKeys_storeNodeStep, hk]
        dsimp only
        split_ifs with hm
        · exact hm
        · exact List.mem_append_right _ (List.mem_singleton_self k)
      exact mem_storeKeys_storeNodesPhase rest (storeNodeStep st it).1 k h1
    · exact ih (storeNodeStep st a).1 hmem

/-- Helper: when every stored item's identity key is already present, the
node-storing loop only updates in place and the key list is unchanged. -/
theorem storeKeys_storeNodesPhase_of_mem (items : List ProcItem) (st : Store)
    (h : ∀ it ∈ items, ∀ k, itemKey it = some k → k ∈ storeKeys st) :
    storeKeys (storeNodesPhase st items).1 = storeKeys st := by
  induction items generalizing st with
  | nil => rfl
  | cons a rest ih =>
    have hstep : storeKeys (storeNodeStep st a).1 = storeKeys st := by
      rw [storeKeys_storeNodeStep]
      cases hk : itemKey a with
      | none => rfl
      | some k2 =>
        dsimp only
        rw [if_pos (h a (List.mem_cons_self _ _) k2 hk)]
    calc storeKeys (storeNodesPhase (storeNodeStep st a).1 rest).1
        = storeKeys (storeNodeStep st a).1 := by
          apply ih
          intro it hmem k hk
          rw [hstep]
          exact h it (List.mem_cons_of_mem _ hmem) k hk
      _ = storeKeys st := hstep

/-- Helper: edge merging never touches the node list. -/
theorem mergeEdge_nodes (st : Store) (src : StoreNode) (ty : String)
    (tgt : StoreNode) (p : List (String × PVal)) :
    (mergeEdge st src ty tgt p).nodes = st.nodes := by
  unfold mergeEdge
  split_ifs <;> rfl

/-- Helper: applying one relationship never touches the node list. -/
theorem storeRelStep_nodes (st : Store) (r : GRel) :
    (storeRelStep st r).1.nodes = st.nodes := by
  unfold storeRelStep
  split_ifs with hv
  · dsimp only
    have hinner : ∀ (tgts : List StoreNode) (s : StoreNode) (acc : Store),
        (tgts.foldl (fun acc2 t => mergeEdge acc2 s r.type t r.properties) acc).nodes =
          acc.nodes := by
      intro tgts
      induction tgts with
      | nil => intro s acc; rfl
      | cons t rest ih =>
        intro s acc
        rw [List.foldl_cons, ih s (mergeEdge acc s r.type t r.properties), mergeEdge_nodes]
    have houter : ∀ (srcs : List StoreNode) (acc : Store),
        (srcs.foldl (fun acc2 s =>
          (st.nodes.filter (fun n => n.id == r.target)).foldl
            (fun acc3 t => mergeEdge acc3 s r.type t r.properties) acc2) acc).nodes =
          acc.nodes := by
      intro srcs
      induction srcs with
      | nil => intro acc; rfl
      | cons s0 rest ih =>
        intro acc
        rw [List.foldl_cons, ih, hinner]
    exact houter _ st
  · rfl

/-- Helper: the relationship-storing loop never touches the node list. -/
theorem storeRelsPhase_nodes (rels : List GRel) (st : Store) :
    (storeRelsPhase st rels).1.nodes = st.nodes := by
  induction rels generalizing st with
  | nil => rfl
  | cons r rest ih =>
    calc (storeRelsPhase (storeRelStep st r).1 rest).1.nodes
        = (storeRelStep st r).1.nodes := ih (storeRelStep st r).1
      _ = st.nodes := storeRelStep_nodes st r

/-- Helper: per-label node counts are determined by the identity-key list. -/
theorem countLabel_eq_keys_countP (st : Store) (l : String) :
    countLabel st l = (storeKeys st).countP (fun k => k.1 == l) := by
  unfold countLabel storeKeys
  rw [List.countP_map]
  rw [← List.countP_eq_length_filter]
  rfl

/-- Helper: the node list of `store_in_neo4j` is fixed by its node phase. -/
theorem storeInNeo4j_nodes (st : Store) (items : List ProcItem) (rels : List GRel) :
    (storeInNeo4j st items rels).1.nodes = (storeNodesPhase st items).1.nodes := by
  unfold storeInNeo4j
  dsimp only
  rw [storeRelsPhase_nodes, storeRelsPhase_nodes]

/-- Helper: the identity keys of `store_in_neo4j` come from its node phase. -/
theorem storeKeys_storeInNeo4j (st : Store) (items : List ProcItem) (rels : List GRel) :
    storeKeys (storeInNeo4j st items rels).1 = storeKeys (storeNodesPhase st items).1 := by
  unfold storeKeys
  rw [storeInNeo4j_nodes]

/-- Helper: sequential merges preserve existing identity keys. -/
theorem mem_storeKeys_applyMerges (ms : List (String × String × List (String × PVal)))
    (st : Store) (k : String × String) (h : k ∈ storeKeys st) :
    k ∈ storeKeys (applyMerges st ms) := by
  induction ms generalizing st with
  | nil => exact h
  | cons m rest ih =>
    exact ih (mergeNode st m.1 m.2.1 m.2.2) (mem_storeKeys_mergeNode st m.1 m.2.1 m.2.2 k h)

/-- Helper: after sequential merges, every merged key is present. -/
theorem merge_mem_after_applyMerges (ms : List (String × String × List (String × PVal)))
    (st : Store) (m : String × String × List (String × PVal)) (hm : m ∈ ms) :
    (m.1, m.2.1) ∈ storeKeys (applyMerges st ms) := by
  induction ms generalizing st with
  | nil => cases hm
  | cons a rest ih =>
    rcases List.mem_cons.mp hm with rfl | hmem
    · have h1 : (m.1, m.2.1) ∈ storeKeys (mergeNode st m.1 m.2.1 m.2.2) := by
        rw [storeKeys_mergeNode]
        split_ifs with hx
        · exact hx
        · exact List.mem_append_right _ (List.mem_singleton_self _)
      exact mem_storeKeys_applyMerges rest (mergeNode st m.1 m.2.1 m.2.2) _ h1
    · exact ih (mergeNode st a.1 a.2.1 a.2.2) hmem

/-- Helper: sequential merges whose keys are all present only update in
place, leaving the identity-key list unchanged. -/
theorem storeKeys_applyMerges_of_mem (ms : List (String × String × List (String × PVal)))
    (st : Store) (h : ∀ m ∈ ms, (m.1, m.2.1) ∈ storeKeys st) :
    storeKeys (applyMerges st ms) = storeKeys st := by
  induction ms generalizing st with
  | nil => rfl
  | cons a rest ih =>
    have hstep : storeKeys (mergeNode st a.1 a.2.1 a.2.2) = storeKeys st := by
      rw [storeKeys_mergeNode, if_pos (h a (List.mem_cons_self _ _))]
    calc storeKeys (applyMerges (mergeNode st a.1 a.2.1 a.2.2) rest)
        = storeKeys (mergeNode st a.1 a.2.1 a.2.2) := by
          apply ih
          intro m hm
          rw [hstep]
          exact h m (List.mem_cons_of_mem _ hm)
      _ = storeKeys st := hstep

/-- Helper: the CIS node-creation loop is the sequence of merges given by
`cisMergeList`. -/
theorem createCisNodes_eq_applyMerges (controls : List CisControl) (st : Store)
    (now : String) :
    createCisNodes st controls now = applyMerges st (cisMergeList controls now) := by
  induction controls generalizing st with
  | nil => rfl
  | cons c rest ih =>
    unfold createCisNodes cisMergeList applyMerges at ih ⊢
    rw [List.foldl_cons, List.flatMap_cons, List.cons_append, List.foldl_cons,
      List.foldl_append, List.foldl_map]
    exact ih _

/-- Helper: the identity keys written by the CIS node-creation loop do not
depend on the write timestamp. -/
theorem cisMergeList_keys (controls : List CisControl) (now : String) :
    (cisMergeList controls now).map (fun m => (m.1, m.2.1)) =
      controls.flatMap (fun c =>
        ("CIS_Control", c.id) :: c.safeguards.map (fun sg => ("CIS_Safeguard", sg.id))) := by
  simp [cisMergeList, List.map_flatMap, List.map_map]
  rfl

/-- Claim C3: the upsert is idempotent on per-label node counts: applying
`store_in_neo4j` twice in succession to any store yields the same
per-label node count as applying it once, and likewise for the CIS
per-framework node creation (even though its write timestamps differ
between runs) — create-or-merge is keyed by (label, identity key), so
re-ingestion updates attributes in place and never duplicates a node
within a label. -/
theorem c3_upsert_idempotent_per_label (st : Store) :
    (∀ (items : List ProcItem) (rels : List GRel) (l : String),
      countLabel (storeInNeo4j (storeInNeo4j st items rels).1 items rels).1 l =
        countLabel (storeInNeo4j st items rels).1 l) ∧
    (∀ (controls : List CisControl) (now now2 : String) (l : String),
      countLabel (createCisNodes (createCisNodes st controls now) controls now2) l =
        countLabel (createCisNodes st controls now) l) := by
  constructor
  · intro items rels l
    have hkeys : storeKeys (storeInNeo4j (storeInNeo4j st items rels).1 items rels).1 =
        storeKeys (storeInNeo4j st items rels).1 := by
      rw [storeKeys_storeInNeo4j]
      rw [storeKeys_storeNodesPhase_of_mem]
      intro it hit k hk
      rw [storeKeys_storeInNeo4j]
      exact itemKey_mem_after_phase items st it hit k hk
    rw [countLabel_eq_keys_countP, countLabel_eq_keys_countP, hkeys]
  · intro controls now now2 l
    have hkeys : storeKeys (createCisNodes (createCisNodes st controls now) controls now2) =
        storeKeys (createCisNodes st controls now) := by
      rw [createCisNodes_eq_applyMerges]
      rw [storeKeys_applyMerges_of_mem]
      intro m hm
      rw [createCisNodes_eq_applyMerges]
      have hk : (m.1, m.2.1) ∈ (cisMergeList controls now).map (fun m2 => (m2.1, m2.2.1)) := by
        rw [cisMergeList_keys, ← cisMergeList_keys controls now2]
        exact List.mem_map_of_mem _ hm
      rcases List.mem_map.mp hk with ⟨m2, hm2, he⟩
      rw [← he]
      exact merge_mem_after_applyMerges _ st m2 hm2
    rw [countLabel_eq_keys_countP, countLabel_eq_keys_countP, hkeys]

/-- Helper: on a list of pure `attack-pattern` objects the dispatch loop
emits, per object, its technique entry followed by its synthesized
tactic entries, and concatenates the per-object relationship lists. -/
theorem processAttackObjects_all_techniques (objs : List StixObject)
    (hT : ∀ o ∈ objs, o.type = "attack-pattern") :
    (processAttackObjects objs).nodes = objs.flatMap (fun o =>
      { node := (processTechnique o).node,
        relationships := (processTechnique o).relationships } :: (processTechnique o).tactics) ∧
    (processAttackObjects objs).relationships =
      objs.flatMap (fun o => (processTechnique o).relationships) := by
  induction objs with
  | nil => exact ⟨rfl, rfl⟩
  | cons o rest ih =>
    have ho := hT o (List.mem_cons_self _ _)
    have ihh := ih (fun o2 h2 => hT o2 (List.mem_cons_of_mem _ h2))
    unfold processAttackObjects
    rw [if_pos ho]
    refine ⟨?_, ?_⟩
    · dsimp only
      rw [ihh.1, List.flatMap_cons]
    · dsimp only
      rw [ihh.2, List.flatMap_cons]

/-- Helper: a technique declaring the single kill-chain tactic `s` yields
exactly one `BELONGS_TO_TACTIC` relationship targeting `tactic_` ++ s and
one synthesized Tactic node entry keyed `tactic_` ++ s. -/
theorem processTechnique_single_tactic (o : StixObject) (s : String)
    (hK : o.kill_chain_phases.map (fun p => p.phase_name) = [s]) :
    (processTechnique o).relationships =
      [{ source := o.id, target := "tactic_" ++ s, type := "BELONGS_TO_TACTIC",
         properties := [("tactic_name", PVal.s s)] }] ∧
    (processTechnique o).tactics =
      [{ node := { id := "tactic_" ++ s, type := "Tactic",
                   properties := [("name", PVal.s s),
                                  ("description", PVal.s ("MITRE ATT&CK Tactic: " ++ s)),
                                  ("created", PVal.s o.created),
                                  ("modified", PVal.s o.modified)] },
         relationships := [] }] := by
  constructor <;> simp [processTechnique, hK]

/-- Helper: a node MERGE on an absent (label, id) key appends a new node. -/
theorem mergeNode_nodes_append (st : Store) (label id2 : String) (p : List (String × PVal))
    (h : ∀ n ∈ st.nodes, ¬(n.label = label ∧ n.id = id2)) :
    (mergeNode st label id2 p).nodes =
      st.nodes ++ [{ label := label, id := id2, props := p }] := by
  unfold mergeNode
  have hna : ¬(st.nodes.any fun n => n.label == label && n.id == id2) = true := by
    intro hany
    rcases List.any_eq_true.mp hany with ⟨n, hn, hp⟩
    simp only [Bool.and_eq_true, beq_iff_eq] at hp
    exact h n hn hp
  rw [if_neg hna]

/-- Helper: a node MERGE on a present (label, id) key updates the matching
nodes in place. -/
theorem mergeNode_nodes_update (st : Store) (label id2 : String) (p : List (String × PVal))
    (h : ∃ n ∈ st.nodes, n.label = label ∧ n.id = id2) :
    (mergeNode st label id2 p).nodes = st.nodes.map (fun n =>
      if n.label == label && n.id == id2 then { n with props := p } else n) := by
  unfold mergeNode
  rw [if_pos]
  rcases h with ⟨n, hn, h1, h2⟩
  exact List.any_eq_true.mpr ⟨n, hn, by simp [h1, h2]⟩

/-- Helper: the in-place MERGE update preserves the list of node ids. -/
theorem update_map_ids (l : List StoreNode) (label id2 : String) (p : List (String × PVal)) :
    (l.map (fun n => if n.label == label && n.id == id2 then { n with props := p } else n)).map
      (fun n => n.id) = l.map (fun n => n.id) := by
  rw [List.map_map]
  apply List.map_congr_left
  intro n hn
  by_cases hc : n.label = label ∧ n.id = id2 <;> simp [hc]

/-- Helper: the in-place MERGE update preserves the ids carrying any given
label. -/
theorem update_filter_label_ids (l : List StoreNode) (label id2 lab2 : String)
    (p : List (String × PVal)) :
    ((l.map (fun n => if n.label == label && n.id == id2 then { n with props := p } else n)).filter
        (fun n => n.label == lab2)).map (fun n => n.id) =
      (l.filter (fun n => n.label == lab2)).map (fun n => n.id) := by
  rw [List.filter_map]
  have hpe : ((fun (n : StoreNode) => n.label == lab2) ∘
      (fun (n : StoreNode) =>
        if n.label == label && n.id == id2 then { n with props := p } else n)) =
      (fun (n : StoreNode) => n.label == lab2) := by
    funext n
    simp only [Function.comp_apply]
    by_cases hc : n.label = label ∧ n.id = id2 <;> simp [hc]
  rw [hpe, List.map_map]
  apply List.map_congr_left
  intro n hn
  by_cases hc : n.label = label ∧ n.id = id2 <;> simp [hc]

/-- Helper: when the node ids are duplicate-free, filtering by a present
node id yields exactly that node. -/
theorem filter_id_singleton (l : List StoreNode) (x : String) (n : StoreNode)
    (hN : (l.map (fun m => m.id)).Nodup) (hmem : n ∈ l) (hid : n.id = x) :
    l.filter (fun m => m.id == x) = [n] := by
  induction l with
  | nil => cases hmem
  | cons a rest ih =>
    rcases List.mem_cons.mp hmem with rfl | hmem2
    · have hrest : rest.filter (fun m => m.id == x) = [] := by
        rw [List.filter_eq_nil_iff]
        intro m hm
        have : n.id ∉ rest.map (fun m2 => m2.id) := (List.nodup_cons.mp hN).1
        simp only [beq_iff_eq]
        intro he
        apply this
        rw [hid, ← he]
        exact List.mem_map_of_mem _ hm
      rw [List.filter_cons, if_pos (by simp [hid]), hrest]
    · have ha : ¬(a.id = x) := by
        intro he
        have h1 : a.id ∉ rest.map (fun m2 => m2.id) := (List.nodup_cons.mp hN).1
        exact h1 (by rw [he, ← hid]; exact List.mem_map_of_mem _ hmem2)
      rw [List.filter_cons, if_neg (by simpa using ha)]
      exact ih (List.nodup_cons.mp hN).2 hmem2

/-- Helper: a singleton Tactic-filter projection exhibits a Tactic node
with the given id. -/
theorem tac_exists_of_filter (l : List StoreNode) (tid : String)
    (h : (l.filter (fun n => n.label == "Tactic")).map (fun n => n.id) = [tid]) :
    ∃ n ∈ l, n.label = "Tactic" ∧ n.id = tid := by
  cases hF : l.filter (fun n => n.label == "Tactic") with
  | nil => rw [hF] at h; cases h
  | cons n restF =>
    rw [hF] at h
    simp only [List.map_cons, List.cons.injEq] at h
    have hmem : n ∈ l.filter (fun n => n.label == "Tactic") := by
      rw [hF]; exact List.mem_cons_self _ _
    exact ⟨n, (List.mem_filter.mp hmem).1,
      by simpa using (List.mem_filter.mp hmem).2, h.1⟩

/-- Helper: storing technique entries over a store whose single Tactic row
is keyed `tactic_` ++ s keeps that row unique, appends exactly the
technique ids, and registers every (Technique, id) identity key. -/
theorem nodePhase_techs (objs : List StixObject) (s : String) : ∀ (st : Store),
    (∀ o ∈ objs, o.kill_chain_phases.map (fun p => p.phase_name) = [s]) →
    ((st.nodes.filter (fun n => n.label == "Tactic")).map (fun n => n.id) =
      ["tactic_" ++ s]) →
    (∀ o ∈ objs, o.id ∉ st.nodes.map (fun n => n.id)) →
    ((objs.map (fun o => o.id)).Nodup) →
    (((storeNodesPhase st (techProcItems objs)).1.nodes.filter
        (fun n => n.label == "Tactic")).map (fun n => n.id) = ["tactic_" ++ s]) ∧
    ((storeNodesPhase st (techProcItems objs)).1.nodes.map (fun n => n.id) =
      st.nodes.map (fun n => n.id) ++ objs.map (fun o => o.id)) ∧
    (∀ o ∈ objs, ("Technique", o.id) ∈
      storeKeys (storeNodesPhase st (techProcItems objs)).1) := by
  induction objs with
  | nil =>
    intro st hK hTac hFresh hN
    refine ⟨hTac, by simp [techProcItems, storeNodesPhase], ?_⟩
    intro o ho
    cases ho
  | cons o rest ih =>
    intro st hK hTac hFresh hN
    have hKo := hK o (List.mem_cons_self _ _)
    have hshape := processTechnique_single_tactic o s hKo
    have hlist : techProcItems (o :: rest) =
        { node := (processTechnique o).node,
          relationships := (processTechnique o).relationships } ::
        ({ node := { id := "tactic_" ++ s, type := "Tactic",
                     properties := [("name", PVal.s s),
                                    ("description", PVal.s ("MITRE ATT&CK Tactic: " ++ s)),
                                    ("created", PVal.s o.created),
                                    ("modified", PVal.s o.modified)] },
           relationships := [] } : ProcItem) :: techProcItems rest := by
      unfold techProcItems
      rw [List.flatMap_cons, hshape.2]
      rfl
    rw [hlist]
    have e1 : (storeNodeStep st
        { node := (processTechnique o).node,
          relationships := (processTechnique o).relationships }).1 =
        mergeNode st "Technique" o.id ((processTechnique o).node.properties) := rfl
    have hfr : ∀ n ∈ st.nodes, ¬(n.label = "Technique" ∧ n.id = o.id) := by
      intro n hn hc
      exact hFresh o (List.mem_cons_self _ _) (hc.2 ▸ List.mem_map_of_mem _ hn)
    have hn1 : (mergeNode st "Technique" o.id ((processTechnique o).node.properties)).nodes =
        st.nodes ++ [{ label := "Technique", id := o.id,
                       props := (processTechnique o).node.properties }] :=
      mergeNode_nodes_append st "Technique" o.id _ hfr
    have e2 : (storeNodeStep
        (mergeNode st "Technique" o.id ((processTechnique o).node.properties))
        ({ node := { id := "tactic_" ++ s, type := "Tactic",
                     properties := [("name", PVal.s s),
                                    ("description", PVal.s ("MITRE ATT&CK Tactic: " ++ s)),
                                    ("created", PVal.s o.created),
                                    ("modified", PVal.s o.modified)] },
           relationships := [] } : ProcItem)).1 =
        mergeNode (mergeNode st "Technique" o.id ((processTechnique o).node.properties))
          "Tactic" ("tactic_" ++ s)
          [("name", PVal.s s),
           ("description", PVal.s ("MITRE ATT&CK Tactic: " ++ s)),
           ("created", PVal.s o.created),
           ("modified", PVal.s o.modified)] := rfl
    obtain ⟨nt, hntmem, hntlab, hntid⟩ := tac_exists_of_filter st.nodes ("tactic_" ++ s) hTac
    have hex : ∃ n ∈ (mergeNode st "Technique" o.id
        ((processTechnique o).node.properties)).nodes,
        n.label = "Tactic" ∧ n.id = "tactic_" ++ s := by
      refine ⟨nt, ?_, hntlab, hntid⟩
      rw [hn1]
      exact List.mem_append_left _ hntmem
    have hn2 := mergeNode_nodes_update
      (mergeNode st "Technique" o.id ((processTechnique o).node.properties))
      "Tactic" ("tactic_" ++ s)
      [("name", PVal.s s),
       ("description", PVal.s ("MITRE ATT&CK Tactic: " ++ s)),
       ("created", PVal.s o.created),
       ("modified", PVal.s o.modified)] hex
    have hgoal : ∀ (L : List ProcItem), (storeNodesPhase st
        ({ node := (processTechnique o).node,
           relationships := (processTechnique o).relationships } ::
         ({ node := { id := "tactic_" ++ s, type := "Tactic",
                      properties := [("name", PVal.s s),
                                     ("description", PVal.s ("MITRE ATT&CK Tactic: " ++ s)),
                                     ("created", PVal.s o.created),
                                     ("modified", PVal.s o.modified)] },
            relationships := [] } : ProcItem) :: L)).1 =
        (storeNodesPhase
          (mergeNode (mergeNode st "Technique" o.id ((processTechnique o).node.properties))
            "Tactic" ("tactic_" ++ s)
            [("name", PVal.s s),
             ("description", PVal.s ("MITRE ATT&CK Tactic: " ++ s)),
             ("created", PVal.s o.created),
             ("modified", PVal.s o.modified)]) L).1 := by
      intro L
      rfl
    rw [hgoal]
    have hids2 : (mergeNode (mergeNode st "Technique" o.id
        ((processTechnique o).node.properties)) "Tactic" ("tactic_" ++ s)
        [("name", PVal.s s),
         ("description", PVal.s ("MITRE ATT&CK Tactic: " ++ s)),
         ("created", PVal.s o.created),
         ("modified", PVal.s o.modified)]).nodes.map (fun n => n.id) =
        st.nodes.map (fun n => n.id) ++ [o.id] := by
      rw [hn2, update_map_ids, hn1, List.map_append]
      rfl
    have hTac2 : ((mergeNode (mergeNode st "Technique" o.id
        ((processTechnique o).node.properties)) "Tactic" ("tactic_" ++ s)
        [("name", PVal.s s),
         ("description", PVal.s ("MITRE ATT&CK Tactic: " ++ s)),
         ("created", PVal.s o.created),
         ("modified", PVal.s o.modified)]).nodes.filter
          (fun n => n.label == "Tactic")).map (fun n => n.id) = ["tactic_" ++ s] := by
      rw [hn2, update_filter_label_ids, hn1, List.filter_append]
      simpa using hTac
    have hres := ih (mergeNode (mergeNode st "Technique" o.id
        ((processTechnique o).node.properties)) "Tactic" ("tactic_" ++ s)
        [("name", PVal.s s),
         ("description", PVal.s ("MITRE ATT&CK Tactic: " ++ s)),
         ("created", PVal.s o.created),
         ("modified", PVal.s o.modified)])
      (fun o2 h2 => hK o2 (List.mem_cons_of_mem _ h2))
      hTac2
      (by
        intro o2 h2
        rw [hids2]
        intro hmem
        rcases List.mem_append.mp hmem with hmem | hmem
        · exact hFresh o2 (List.mem_cons_of_mem _ h2) hmem
        · have ho2 : o2.id = o.id := by simpa using hmem
          have hno : o.id ∉ rest.map (fun o3 => o3.id) := by
            have := List.nodup_cons.mp hN
            simpa using this.1
          exact hno (ho2 ▸ List.mem_map_of_mem _ h2))
      (List.nodup_cons.mp hN).2
    refine ⟨hres.1, ?_, ?_⟩
    · rw [hres.2.1, hids2]
      simp
    · intro o2 ho2
      rcases List.mem_cons.mp ho2 with rfl | hmem
      · apply mem_storeKeys_storeNodesPhase
        apply mem_storeKeys_mergeNode
        rw [storeKeys_mergeNode]
        split_ifs with hp
        · exact hp
        · exact List.mem_append_right _ (List.mem_singleton_self _)
      · exact hres.2.2 o2 hmem

/-- Helper: the node-storing loop never touches edges. -/
theorem storeNodesPhase_edges (items : List ProcItem) (st : Store) :
    (storeNodesPhase st items).1.edges = st.edges := by
  induction items generalizing st with
  | nil => rfl
  | cons it rest ih =>
    have hstep : (storeNodeStep st it).1.edges = st.edges := by
      cases hk : nodeSetKeys it.node.type with
      | none => simp [storeNodeStep, hk]
      | some keys =>
        cases he : extractSetProps it.node.properties keys with
        | none => simp [storeNodeStep, hk, he]
        | some p =>
          simp only [storeNodeStep, hk, he]
          unfold mergeNode
          split_ifs <;> rfl
    calc (storeNodesPhase (storeNodeStep st it).1 rest).1.edges
        = (storeNodeStep st it).1.edges := ih (storeNodeStep st it).1
      _ = st.edges := hstep

/-- Helper: the additive `SET r +=` update preserves every edge identity
tuple. -/
theorem updateEdge_map_keys (l : List StoreEdge)
    (c : StoreEdge → Bool) (p : List (String × PVal)) :
    ((l.map (fun e => if c e then { e with props := addEdgeProps e.props p } else e)).map
      edgeKey) = l.map edgeKey := by
  rw [List.map_map]
  apply List.map_congr_left
  intro e he
  by_cases hc : c e <;> simp [hc, edgeKey]

/-- Helper: stores with the same node list have the same identity-key
list. -/
theorem storeKeys_of_nodes_eq (st1 st2 : Store) (h : st1.nodes = st2.nodes) :
    storeKeys st1 = storeKeys st2 := by
  unfold storeKeys
  rw [h]

/-- Helper: a present identity key exhibits a node carrying it. -/
theorem key_mem_exists (st : Store) (lab idv : String)
    (h : (lab, idv) ∈ storeKeys st) :
    ∃ n ∈ st.nodes, n.label = lab ∧ n.id = idv := by
  rcases List.mem_map.mp h with ⟨n, hn, he⟩
  exact ⟨n, hn, congrArg Prod.fst he, congrArg Prod.snd he⟩

/-- Helper: the first pass of the `BELONGS_TO_TACTIC` relationships over a
store with no edges out of the techniques: nodes are unchanged and
exactly one edge per technique is appended. -/
theorem relPhase_belongs_fresh (os : List StixObject) (s : String) : ∀ (st : Store),
    ((st.nodes.map (fun n => n.id)).Nodup) →
    (∀ o ∈ os, ("Technique", o.id) ∈ storeKeys st) →
    (("Tactic", "tactic_" ++ s) ∈ storeKeys st) →
    ((os.map (fun o => o.id)).Nodup) →
    (∀ o ∈ os, ∀ e ∈ st.edges, e.srcId ≠ o.id) →
    ((storeRelsPhase st (os.map (fun o => belongsRelOf o s))).1.nodes = st.nodes) ∧
    ((storeRelsPhase st (os.map (fun o => belongsRelOf o s))).1.edges.map edgeKey =
      st.edges.map edgeKey ++ os.map (fun o =>
        ("Technique", o.id, "BELONGS_TO_TACTIC", "Tactic", "tactic_" ++ s))) := by
  induction os with
  | nil =>
    intro st h1 h2 h3 h4 h5
    exact ⟨rfl, by simp [storeRelsPhase]⟩
  | cons o rest ih =>
    intro st hNid hT hTac hOs hFr
    obtain ⟨nS, hnSmem, hnSlab, hnSid⟩ := key_mem_exists st "Technique" o.id
      (hT o (List.mem_cons_self _ _))
    obtain ⟨nT, hnTmem, hnTlab, hnTid⟩ := key_mem_exists st "Tactic" ("tactic_" ++ s) hTac
    have hsrcs : st.nodes.filter (fun n => n.id == o.id) = [nS] :=
      filter_id_singleton st.nodes o.id nS hNid hnSmem hnSid
    have htgts : st.nodes.filter (fun n => n.id == "tactic_" ++ s) = [nT] :=
      filter_id_singleton st.nodes ("tactic_" ++ s) nT hNid hnTmem hnTid
    have hv : validRelType "BELONGS_TO_TACTIC" = true := by decide
    have hstep : storeRelStep st (belongsRelOf o s) =
        (mergeEdge st nS "BELONGS_TO_TACTIC" nT [("tactic_name", PVal.s s)], 1) := by
      unfold storeRelStep belongsRelOf
      dsimp only
      rw [if_pos hv]
      rw [hsrcs, htgts]
      rfl
    have hnew : mergeEdge st nS "BELONGS_TO_TACTIC" nT [("tactic_name", PVal.s s)] =
        { st with edges := st.edges ++
          [{ srcLabel := nS.label, srcId := nS.id, type := "BELONGS_TO_TACTIC",
             tgtLabel := nT.label, tgtId := nT.id,
             props := [("tactic_name", PVal.s s)] }] } := by
      unfold mergeEdge
      rw [if_neg]
      intro hany
      rcases List.any_eq_true.mp hany with ⟨e, he, hp⟩
      simp only [Bool.and_eq_true, beq_iff_eq] at hp
      exact hFr o (List.mem_cons_self _ _) e he (by rw [hp.1.1.1.2, hnSid])
    have hrec := ih (mergeEdge st nS "BELONGS_TO_TACTIC" nT [("tactic_name", PVal.s s)])
      (by rw [hnew]; exact hNid)
      (by
        intro o2 h2
        rw [storeKeys_of_nodes_eq _ st (by rw [hnew])]
        exact hT o2 (List.mem_cons_of_mem _ h2))
      (by
        rw [storeKeys_of_nodes_eq _ st (by rw [hnew])]
        exact hTac)
      (List.nodup_cons.mp hOs).2
      (by
        intro o2 h2 e he
        rw [hnew] at he
        dsimp only at he
        rcases List.mem_append.mp he with he | he
        · exact hFr o2 (List.mem_cons_of_mem _ h2) e he
        · have : e.srcId = nS.id := by
            rcases List.mem_singleton.mp he with rfl
            rfl
          rw [this, hnSid]
          intro hc
          have hno : o.id ∉ rest.map (fun o3 => o3.id) := by
            simpa using (List.nodup_cons.mp hOs).1
          exact hno (hc ▸ List.mem_map_of_mem _ h2))
    rw [List.map_cons]
    constructor
    · show (storeRelsPhase (storeRelStep st (belongsRelOf o s)).1
        (rest.map (fun o2 => belongsRelOf o2 s))).1.nodes = st.nodes
      rw [hstep]
      dsimp only
      rw [hrec.1, hnew]
    · show ((storeRelsPhase (storeRelStep st (belongsRelOf o s)).1
        (rest.map (fun o2 => belongsRelOf o2 s))).1.edges.map edgeKey) = _
      rw [hstep]
      dsimp only
      rw [hrec.2, hnew]
      dsimp only
      rw [List.map_append]
      simp only [List.map_cons, List.map_nil, edgeKey, hnSlab, hnSid, hnTlab, hnTid]
      rw [List.append_assoc]
      rfl

/-- Helper: a repeated pass of the same `BELONGS_TO_TACTIC` relationships:
every MERGE matches the existing edge, so the nodes and the edge
identity tuples are unchanged. -/
theorem relPhase_belongs_merge (os : List StixObject) (s : String) : ∀ (st : Store),
    ((st.nodes.map (fun n => n.id)).Nodup) →
    (∀ o ∈ os, ("Technique", o.id) ∈ storeKeys st) →
    (("Tactic", "tactic_" ++ s) ∈ storeKeys st) →
    (∀ o ∈ os, ("Technique", o.id, "BELONGS_TO_TACTIC", "Tactic", "tactic_" ++ s) ∈
      st.edges.map edgeKey) →
    ((storeRelsPhase st (os.map (fun o => belongsRelOf o s))).1.nodes = st.nodes) ∧
    ((storeRelsPhase st (os.map (fun o => belongsRelOf o s))).1.edges.map edgeKey =
      st.edges.map edgeKey) := by
  induction os with
  | nil =>
    intro st h1 h2 h3 h4
    exact ⟨rfl, rfl⟩
  | cons o rest ih =>
    intro st hNid hT hTac hPres
    obtain ⟨nS, hnSmem, hnSlab, hnSid⟩ := key_mem_exists st "Technique" o.id
      (hT o (List.mem_cons_self _ _))
    obtain ⟨nT, hnTmem, hnTlab, hnTid⟩ := key_mem_exists st "Tactic" ("tactic_" ++ s) hTac
    have hsrcs : st.nodes.filter (fun n => n.id == o.id) = [nS] :=
      filter_id_singleton st.nodes o.id nS hNid hnSmem hnSid
    have htgts : st.nodes.filter (fun n => n.id == "tactic_" ++ s) = [nT] :=
      filter_id_singleton st.nodes ("tactic_" ++ s) nT hNid hnTmem hnTid
    have hv : validRelType "BELONGS_TO_TACTIC" = true := by decide
    have hstep : storeRelStep st (belongsRelOf o s) =
        (mergeEdge st nS "BELONGS_TO_TACTIC" nT [("tactic_name", PVal.s s)], 1) := by
      unfold storeRelStep belongsRelOf
      dsimp only
      rw [if_pos hv]
      rw [hsrcs, htgts]
      rfl
    have hup : mergeEdge st nS "BELONGS_TO_TACTIC" nT [("tactic_name", PVal.s s)] =
        { st with edges := st.edges.map (fun e =>
          if e.srcLabel == nS.label && e.srcId == nS.id && e.type == "BELONGS_TO_TACTIC" &&
              e.tgtLabel == nT.label && e.tgtId == nT.id then
            { e with props := addEdgeProps e.props [("tactic_name", PVal.s s)] }
          else e) } := by
      unfold mergeEdge
      rw [if_pos]
      rcases List.mem_map.mp (hPres o (List.mem_cons_self _ _)) with ⟨e, he, hkey⟩
      apply List.any_eq_true.mpr
      refine ⟨e, he, ?_⟩
      unfold edgeKey at hkey
      simp only [Prod.mk.injEq] at hkey
      simp only [Bool.and_eq_true, beq_iff_eq]
      exact ⟨⟨⟨⟨hkey.1.trans hnSlab.symm, hkey.2.1.trans hnSid.symm⟩, hkey.2.2.1⟩,
        hkey.2.2.2.1.trans hnTlab.symm⟩, hkey.2.2.2.2.trans hnTid.symm⟩
    have hkeysame : ({ st with edges := st.edges.map (fun e =>
        if e.srcLabel == nS.label && e.srcId == nS.id && e.type == "BELONGS_TO_TACTIC" &&
            e.tgtLabel == nT.label && e.tgtId == nT.id then
          { e with props := addEdgeProps e.props [("tactic_name", PVal.s s)] }
        else e) } : Store).edges.map edgeKey = st.edges.map edgeKey := by
      dsimp only
      exact updateEdge_map_keys st.edges _ _
    have hrec := ih (mergeEdge st nS "BELONGS_TO_TACTIC" nT [("tactic_name", PVal.s s)])
      (by rw [hup]; exact hNid)
      (by
        intro o2 h2
        rw [storeKeys_of_nodes_eq _ st (by rw [hup])]
        exact hT o2 (List.mem_cons_of_mem _ h2))
      (by
        rw [storeKeys_of_nodes_eq _ st (by rw [hup])]
        exact hTac)
      (by
        intro o2 h2
        rw [hup]
        rw [hkeysame]
        exact hPres o2 (List.mem_cons_of_mem _ h2))
    rw [List.map_cons]
    constructor
    · show (storeRelsPhase (storeRelStep st (belongsRelOf o s)).1
        (rest.map (fun o2 => belongsRelOf o2 s))).1.nodes = st.nodes
      rw [hstep]
      dsimp only
      rw [hrec.1, hup]
    · show ((storeRelsPhase (storeRelStep st (belongsRelOf o s)).1
        (rest.map (fun o2 => belongsRelOf o2 s))).1.edges.map edgeKey) = _
      rw [hstep]
      dsimp only
      rw [hrec.2, hup, hkeysame]

/-- Helper: synthesized tactic node entries carry no relationships of
their own. -/
theorem tactics_items_no_rels (o : StixObject) :
    ((processTechnique o).tactics).flatMap (fun it => it.relationships) = [] := by
  unfold processTechnique
  dsimp only
  rw [List.flatMap_map]
  simp [Function.comp]

/-- Helper: the relationships embedded in the technique node-entry list
are exactly the concatenated per-object relationship lists. -/
theorem techProcItems_rels (objs : List StixObject) :
    (techProcItems objs).flatMap (fun it => it.relationships) =
      objs.flatMap (fun o => (processTechnique o).relationships) := by
  induction objs with
  | nil => rfl
  | cons o rest ih =>
    unfold techProcItems
    rw [List.flatMap_cons, List.flatMap_append, List.flatMap_cons]
    unfold techProcItems at ih
    rw [ih, tactics_items_no_rels]
    simp

/-- Helper: under one shared tactic `s`, the concatenated relationship
lists are one `BELONGS_TO_TACTIC` relationship per object. -/
theorem flatMap_rels_eq (objs : List StixObject) (s : String)
    (hK : ∀ o ∈ objs, o.kill_chain_phases.map (fun p => p.phase_name) = [s]) :
    objs.flatMap (fun o => (processTechnique o).relationships) =
      objs.map (fun o => belongsRelOf o s) := by
  induction objs with
  | nil => rfl
  | cons o rest ih =>
    rw [List.flatMap_cons, List.map_cons,
      (processTechnique_single_tactic o s (hK o (List.mem_cons_self _ _))).1,
      ih (fun o2 h2 => hK o2 (List.mem_cons_of_mem _ h2))]
    rfl

/-- Helper: counting the edges of a type equals counting the edge identity
tuples carrying that type. -/
theorem filter_type_length (l : List StoreEdge) (ty : String) :
    (l.filter (fun e => e.type == ty)).length =
      (l.map edgeKey).countP (fun k => k.2.2.1 == ty) := by
  rw [List.countP_map, ← List.countP_eq_length_filter]
  rfl

/-- Helper: a node MERGE never touches edges. -/
theorem mergeNode_edges (st : Store) (label id2 : String) (p : List (String × PVal)) :
    (mergeNode st label id2 p).edges = st.edges := by
  unfold mergeNode
  split_ifs <;> rfl

/-- Helper: the node-entry list of a cons starts with the technique entry
and its synthesized tactic entry. -/
theorem techProcItems_cons (o : StixObject) (rest : List StixObject) (s : String)
    (hK : o.kill_chain_phases.map (fun p => p.phase_name) = [s]) :
    techProcItems (o :: rest) =
      { node := (processTechnique o).node,
        relationships := (processTechnique o).relationships } ::
      ({ node := { id := "tactic_" ++ s, type := "Tactic",
                   properties := [("name", PVal.s s),
                                  ("description", PVal.s ("MITRE ATT&CK Tactic: " ++ s)),
                                  ("created", PVal.s o.created),
                                  ("modified", PVal.s o.modified)] },
         relationships := [] } : ProcItem) :: techProcItems rest := by
  unfold techProcItems
  rw [List.flatMap_cons, (processTechnique_single_tactic o s hK).2]
  rfl

/-- Helper: the node phase from the empty store over techniques sharing
tactic `s`: one Tactic row keyed `tactic_` ++ s, the technique ids in
order, every identity key registered, and no edges. -/
theorem nodePhase_from_empty (o1 : StixObject) (rest : List StixObject) (s : String)
    (hK : ∀ o ∈ o1 :: rest, o.kill_chain_phases.map (fun p => p.phase_name) = [s])
    (hN : ((o1 :: rest).map (fun o => o.id)).Nodup)
    (hne : ∀ o ∈ o1 :: rest, o.id ≠ "tactic_" ++ s) :
    (((storeNodesPhase emptyStore (techProcItems (o1 :: rest))).1.nodes.filter
        (fun n => n.label == "Tactic")).map (fun n => n.id) = ["tactic_" ++ s]) ∧
    ((storeNodesPhase emptyStore (techProcItems (o1 :: rest))).1.nodes.map
        (fun n => n.id) = o1.id :: ("tactic_" ++ s) :: rest.map (fun o => o.id)) ∧
    (∀ o ∈ o1 :: rest, ("Technique", o.id) ∈
      storeKeys (storeNodesPhase emptyStore (techProcItems (o1 :: rest))).1) ∧
    (("Tactic", "tactic_" ++ s) ∈
      storeKeys (storeNodesPhase emptyStore (techProcItems (o1 :: rest))).1) ∧
    ((storeNodesPhase emptyStore (techProcItems (o1 :: rest))).1.edges = []) := by
  have hKo := hK o1 (List.mem_cons_self _ _)
  have hphase : (storeNodesPhase emptyStore (techProcItems (o1 :: rest))).1 =
      (storeNodesPhase
        (techTacStore o1.id ((processTechnique o1).node.properties)
          (tacticProps o1 s) s) (techProcItems rest)).1 := by
    rw [techProcItems_cons o1 rest s hKo]
    rfl
  have hTac2 : (((techTacStore o1.id ((processTechnique o1).node.properties)
      (tacticProps o1 s) s).nodes.filter
        (fun n => n.label == "Tactic")).map (fun n => n.id)) = ["tactic_" ++ s] := rfl
  have hFresh : ∀ o ∈ rest, o.id ∉ ((techTacStore o1.id
      ((processTechnique o1).node.properties) (tacticProps o1 s) s).nodes.map
        (fun n => n.id)) := by
    intro o ho hmem
    have hoi : o.id = o1.id ∨ o.id = "tactic_" ++ s := by
      simpa [techTacStore] using hmem
    rcases hoi with h | h
    · have hno : o1.id ∉ rest.map (fun o3 => o3.id) := by
        simpa using (List.nodup_cons.mp hN).1
      exact hno (h ▸ List.mem_map_of_mem _ ho)
    · exact hne o (List.mem_cons_of_mem _ ho) h
  have hnp := nodePhase_techs rest s _
    (fun o ho => hK o (List.mem_cons_of_mem _ ho)) hTac2 hFresh
    (List.nodup_cons.mp hN).2
  refine ⟨?_, ?_, ?_, ?_, ?_⟩
  · rw [hphase]
    exact hnp.1
  · rw [hphase, hnp.2.1]
    rfl
  · intro o ho
    rw [hphase]
    rcases List.mem_cons.mp ho with rfl | hmem
    · apply mem_storeKeys_storeNodesPhase
      exact List.mem_cons_self _ _
    · exact hnp.2.2 o hmem
  · rw [hphase]
    apply mem_storeKeys_storeNodesPhase
    exact List.mem_cons_of_mem _ (List.mem_cons_self _ _)
  · rw [hphase, storeNodesPhase_edges]
    rfl

/-- Claim C1 (amended): for any nonempty technique list whose objects all
declare the same single kill-chain tactic short name `s`, with distinct
ids none of which collides with the tactic key, ingestion yields exactly
one Tactic node — keyed `tactic_` ++ s, not `tactic--` ++ s — and exactly
one `BELONGS_TO_TACTIC` edge (the code has no `PART_OF_TACTIC` type) per
technique, each from that Technique node to the single Tactic node. -/
theorem c1_tactic_dedup_amended (o1 : StixObject) (rest : List StixObject) (s : String)
    (hT : ∀ o ∈ o1 :: rest, o.type = "attack-pattern")
    (hK : ∀ o ∈ o1 :: rest, o.kill_chain_phases.map (fun p => p.phase_name) = [s])
    (hN : ((o1 :: rest).map (fun o => o.id)).Nodup)
    (hne : ∀ o ∈ o1 :: rest, o.id ≠ "tactic_" ++ s) :
    (((ingestAttackData (o1 :: rest)).1.nodes.filter
        (fun n => n.label == "Tactic")).map (fun n => n.id) = ["tactic_" ++ s]) ∧
    ((ingestAttackData (o1 :: rest)).1.edges.map edgeKey =
      (o1 :: rest).map (fun o =>
        ("Technique", o.id, "BELONGS_TO_TACTIC", "Tactic", "tactic_" ++ s))) ∧
    (((ingestAttackData (o1 :: rest)).1.edges.filter
        (fun e => e.type == "BELONGS_TO_TACTIC")).length = (o1 :: rest).length) := by
  have hnodes : (processAttackObjects (o1 :: rest)).nodes = techProcItems (o1 :: rest) :=
    (processAttackObjects_all_techniques _ hT).1
  have hrels : (processAttackObjects (o1 :: rest)).relationships =
      (o1 :: rest).map (fun o => belongsRelOf o s) := by
    rw [(processAttackObjects_all_techniques _ hT).2]
    exact flatMap_rels_eq _ s hK
  have hA : (ingestAttackData (o1 :: rest)).1 =
      (storeRelsPhase
        (storeRelsPhase
          (storeNodesPhase emptyStore (processAttackObjects (o1 :: rest)).nodes).1
          ((processAttackObjects (o1 :: rest)).nodes.flatMap
            (fun it => it.relationships))).1
        (processAttackObjects (o1 :: rest)).relationships).1 := rfl
  rw [hnodes, hrels, techProcItems_rels, flatMap_rels_eq _ s hK] at hA
  have hnp := nodePhase_from_empty o1 rest s hK hN hne
  have hNodupIds : ((storeNodesPhase emptyStore (techProcItems (o1 :: rest))).1.nodes.map
      (fun n => n.id)).Nodup := by
    rw [hnp.2.1]
    refine List.nodup_cons.mpr ⟨?_, List.nodup_cons.mpr ⟨?_, (List.nodup_cons.mp hN).2⟩⟩
    · intro hmem
      rcases List.mem_cons.mp hmem with h | h
      · exact hne o1 (List.mem_cons_self _ _) h
      · exact (by simpa using (List.nodup_cons.mp hN).1 : o1.id ∉ rest.map
          (fun o3 => o3.id)) h
    · intro hmem
      rcases List.mem_map.mp hmem with ⟨o, ho, hoe⟩
      exact hne o (List.mem_cons_of_mem _ ho) hoe
  have hfr := relPhase_belongs_fresh (o1 :: rest) s
    (storeNodesPhase emptyStore (techProcItems (o1 :: rest))).1
    hNodupIds hnp.2.2.1 hnp.2.2.2.1 hN
    (by
      intro o ho e he
      rw [hnp.2.2.2.2] at he
      cases he)
  have hfr2 : ((storeRelsPhase (storeNodesPhase emptyStore (techProcItems (o1 :: rest))).1
      ((o1 :: rest).map (fun o => belongsRelOf o s))).1.edges.map edgeKey) =
      (o1 :: rest).map (fun o =>
        ("Technique", o.id, "BELONGS_TO_TACTIC", "Tactic", "tactic_" ++ s)) := by
    rw [hfr.2, hnp.2.2.2.2]
    rfl
  have hmg := relPhase_belongs_merge (o1 :: rest) s
    (storeRelsPhase (storeNodesPhase emptyStore (techProcItems (o1 :: rest))).1
      ((o1 :: rest).map (fun o => belongsRelOf o s))).1
    (by rw [hfr.1]; exact hNodupIds)
    (by
      intro o ho
      rw [storeKeys_of_nodes_eq _ _ hfr.1]
      exact hnp.2.2.1 o ho)
    (by
      rw [storeKeys_of_nodes_eq _ _ hfr.1]
      exact hnp.2.2.2.1)
    (by
      intro o ho
      rw [hfr2]
      exact List.mem_map_of_mem _ ho)
  refine ⟨?_, ?_, ?_⟩
  · rw [hA, hmg.1, hfr.1]
    exact hnp.1
  · rw [hA, hmg.2, hfr2]
  · rw [hA, filter_type_length, hmg.2, hfr2, List.countP_map]
    apply List.countP_eq_length.mpr
    intro a ha
    rfl

/-- Claim C1, counterexample to the literal wording: ingesting the three
`execution` techniques produces no node keyed `tactic--execution` and no
`PART_OF_TACTIC` edge; the single Tactic node is keyed `tactic_execution`
and the three edges per technique are typed `BELONGS_TO_TACTIC`. -/
theorem c1_counterexample_key_and_edge_type :
    ((ingestAttackData c1Objects).1.nodes.filter
        (fun n => n.id == "tactic--execution")).length = 0 ∧
    ((ingestAttackData c1Objects).1.edges.filter
        (fun e => e.type == "PART_OF_TACTIC")).length = 0 ∧
    (((ingestAttackData c1Objects).1.nodes.filter
        (fun n => n.label == "Tactic")).map (fun n => n.id) = ["tactic_execution"]) ∧
    ((ingestAttackData c1Objects).1.edges.filter
        (fun e => e.type == "BELONGS_TO_TACTIC")).length = 3 := by decide

/-- Claim C1, witness: the amended theorem instantiated at the three
concrete `execution` techniques. -/
theorem c1_tactic_dedup_amended_witness :
    (((ingestAttackData (c1Obj1 :: [c1Obj2, c1Obj3])).1.nodes.filter
        (fun n => n.label == "Tactic")).map (fun n => n.id) = ["tactic_" ++ "execution"]) ∧
    (((ingestAttackData (c1Obj1 :: [c1Obj2, c1Obj3])).1.edges.filter
        (fun e => e.type == "BELONGS_TO_TACTIC")).length =
      (c1Obj1 :: [c1Obj2, c1Obj3]).length) := by
  have h := c1_tactic_dedup_amended c1Obj1 [c1Obj2, c1Obj3] "execution"
    (by decide) (by decide) (by decide) (by decide)
  exact ⟨h.1, h.2.2⟩
